import Mathlib

/-!
# BU9795 segmented-LCD driver: command encoding, bus framing, shadow register

Shallow embedding of `drivers/BU9795/zephyr/bu9795_driver.c` and of the display
facade `src/display.c`.

* Bytes (`uint8_t` / `u8_t`) are natural numbers; a value stored into a byte is
  reduced with `u8` (`% 256`).
* `int` values (error codes, the test-pattern stage) are integers.
* The SPI bus is an explicit value `SpiBus`: the frames handed to `spi_write`,
  oldest first, together with the return code the bus gives to each call.
* The driver instance (`struct device`) is an explicit value `Device`, threaded
  through every operation.
* The facade keeps its two globals in a value `Display`; the driver functions it
  calls are a parameter, `DriverApi`, with an instance that records the calls.
-/

namespace BU9795

/-! ## Constants of the driver -/

/-- Store into a `uint8_t`: keep the low eight bits. -/
def u8 (x : Nat) : Nat := x % 256

/-- Zephyr bit macro, `BIT(n) = 1UL << n`. -/
def BIT (n : Nat) : Nat := 1 <<< n

/-- Bitwise complement of an `unsigned long` (32 bits on the target). -/
def bnot (x : Nat) : Nat := 0xFFFFFFFF ^^^ (x % 2 ^ 32)

def BU9795_SEG_REGISTER_SIZE : Nat := 15

def BU9795_CMD_DATA_BIT : Nat := BIT 7

def BU9795_CMD_ADDRESS : Nat := 0x00
def BU9795_CMD_MODE : Nat := 0x40
def BU9795_CMD_DISPLAY_CONTROL : Nat := 0x20
def BU9795_CMD_IC : Nat := 0x68
def BU9795_CMD_BLINK : Nat := 0x70
def BU9795_CMD_ALL_PIXEL : Nat := 0x7C

def DISPLAY_MODE_BIT : Nat := BIT 3
def DISPLAY_ON : Nat := 0x08
def DISPLAY_OFF : Nat := 0x00

def DISPLAY_BIAS_LEVEL_BIT : Nat := BIT 2
def DISPLAY_BIAS_LEVEL_1_3 : Nat := 0x00
def DISPLAY_BIAS_LEVEL_1_2 : Nat := 0x04

def BU9795_ADDRESS_MASK : Nat := 0x1F

def BU9795_DISPLAY_FREQ_MASK : Nat := BIT 4 ||| BIT 3
def BU9795_DISPLAY_FREQ_80 : Nat := 0x00
def BU9795_DISPLAY_FREQ_71 : Nat := 0x08
def BU9795_DISPLAY_FREQ_64 : Nat := 0x10
def BU9795_DISPLAY_FREQ_53 : Nat := 0x18

def BU9795_DISPLAY_WAVEFORM_MASK : Nat := BIT 2
def BU9795_DISPLAY_WAVEFORM_LINE : Nat := 0x00
def BU9795_DISPLAY_WAVEFORM_FRAME : Nat := 0x04

def BU9795_DISPLAY_POWER_MASK : Nat := BIT 1 ||| BIT 0
def BU9795_DISPLAY_POWER_SAVE_1 : Nat := 0x00
def BU9795_DISPLAY_POWER_SAVE_2 : Nat := 0x01
def BU9795_DISPLAY_POWER_NORMAL : Nat := 0x02
def BU9795_DISPLAY_POWER_HIGH : Nat := 0x03

def BU9795_IC_MSB_MASK : Nat := BIT 2
def BU9795_IC_MSB_0 : Nat := 0x00
def BU9795_IC_MSB_1 : Nat := 0x04

def BU9795_IC_RESET : Nat := 0x02

def BU9795_IC_CLOCK_MASK : Nat := BIT 0
def BU9795_IC_CLOCK_EXTERNAL : Nat := 0x01
def BU9795_IC_CLOCK_INTERMAL : Nat := 0x00

def BU9795_BLINK_RATE_MASK : Nat := BIT 1 ||| BIT 0
def BU9795_BLINK_RATE_OFF : Nat := 0x00
def BU9795_BLINK_RATE_HALF : Nat := 0x01
def BU9795_BLINK_RATE_1 : Nat := 0x02
def BU9795_BLINK_RATE_2 : Nat := 0x03

def BU9795_ALL_PIXELS_MASK : Nat := BIT 1 ||| BIT 0
def BU9795_ALL_PIXELS_ON : Nat := 0x02
def BU9795_ALL_PIXELS_OFF : Nat := 0x01

/-- Value of `EINVAL` in the C library's `errno.h`. -/
def EINVAL : Int := 22

/-! ## Data model -/

/-- Driver data, `struct bu9795_data`: the bound handles and the local copy of
the segment register. A handle is `none` for `NULL`. -/
structure bu9795_data where
  spi_dev : Option Nat
  spi_cs_dev : Option Nat
  spi_cs_pin : Nat
  data : List Nat
deriving DecidableEq

/-- Static configuration, `struct bu9795_config`; `spi_cs_dev_name = none` is
the `NULL` name (no chip-select device configured). -/
structure bu9795_config where
  spi_dev_name : String
  spi_cs_dev_name : Option String
  spi_cs_pin : Nat
deriving DecidableEq

/-- One driver instance, `struct device`: its driver data and its configuration. -/
structure Device where
  driver_data : bu9795_data
  config : bu9795_config
deriving DecidableEq

/-- A `struct spi_buf_set` as handed to `spi_write`: the bytes of each buffer,
in order. All buffers of one set go out under one chip-select assertion. -/
abbrev Frame := List (List Nat)

/-- The bytes of a frame as they appear on the wire. -/
def Frame.wire (f : Frame) : List Nat := f.flatten

/-- The SPI bus: every frame handed to `spi_write` so far (oldest first) and
the return code the bus gives to the k-th call (0 is success). -/
structure SpiBus where
  log : List Frame
  resp : Nat → Int

/-- The call `spi_write(spi_dev, &spi_cfg, &tx)`: records the frame and returns the
code of the bus for this call. -/
def spi_write (bus : SpiBus) (tx : Frame) : Int × SpiBus :=
  (bus.resp bus.log.length, { bus with log := bus.log ++ [tx] })

/-! ## Command encoder -/

def bu9795_set_mode (display_on bias : Nat) : Nat :=
  u8 (BU9795_CMD_MODE ||| (display_on &&& DISPLAY_MODE_BIT) ||| (bias &&& DISPLAY_BIAS_LEVEL_BIT))

def bu9795_set_address (address : Nat) : Nat :=
  u8 (BU9795_CMD_ADDRESS ||| (address &&& BU9795_ADDRESS_MASK))

def bu9795_set_display_control (frequency waveform power_mode : Nat) : Nat :=
  u8 (BU9795_CMD_DISPLAY_CONTROL
      ||| (frequency &&& BU9795_DISPLAY_FREQ_MASK)
      ||| (waveform &&& BU9795_DISPLAY_WAVEFORM_MASK)
      ||| (power_mode &&& BU9795_DISPLAY_POWER_MASK))

def bu9795_reset : Nat :=
  u8 (BU9795_CMD_IC ||| BU9795_IC_RESET)

def bu9795_set_ic (msb clock_source : Nat) : Nat :=
  u8 (BU9795_CMD_IC
      ||| (msb &&& BU9795_IC_MSB_MASK)
      ||| (clock_source &&& BU9795_IC_CLOCK_MASK))

def bu9795_set_blick_rate (rate : Nat) : Nat :=
  u8 (BU9795_CMD_BLINK ||| (rate &&& BU9795_BLINK_RATE_MASK))

def bu9795_set_all_pixels (state : Nat) : Nat :=
  u8 (BU9795_CMD_ALL_PIXEL ||| (state &&& BU9795_ALL_PIXELS_MASK))

/-! ## Bus transport -/

/-- Body of the loop of `bu9795_write_commands`: `commands[i] |= BU9795_CMD_DATA_BIT`. -/
def tag_step (commands : List Nat) (i : Nat) : List Nat :=
  commands.set i (u8 (commands.getD i 0 ||| BU9795_CMD_DATA_BIT))

/-- The loop `for (i = 0; i < length; i++) commands[i] |= BU9795_CMD_DATA_BIT`. -/
def tag_commands (commands : List Nat) (length : Nat) : List Nat :=
  (List.range length).foldl tag_step commands

/-- Tags the first `length` bytes of `commands` in place and sends them as one
buffer in one `spi_write`; returns the code of the bus. -/
def bu9795_write_commands (_dev : Device) (bus : SpiBus) (commands : List Nat) (length : Nat) :
    Int × SpiBus :=
  let commands := tag_commands commands length
  let tx : Frame := [commands.take length]
  spi_write bus tx

/-- Sends the address command (data bit cleared) and the first `len` bytes of
`payload` as two buffers of one `spi_write`. -/
def bu9795_write_data (_dev : Device) (bus : SpiBus) (addr : Nat) (payload : List Nat) (len : Nat) :
    Int × SpiBus :=
  let command := u8 (bu9795_set_address addr &&& bnot BU9795_CMD_DATA_BIT)
  let tx : Frame := [[command], payload.take len]
  spi_write bus tx

def bu9795_flush (dev : Device) (bus : SpiBus) : Int × SpiBus :=
  bu9795_write_data dev bus 0 dev.driver_data.data BU9795_SEG_REGISTER_SIZE

/-! ## Initialisation -/

/-- The transmissions of `bu9795_init`, after the handles are bound and the
settle delay has passed: the four setup commands, the flush of the segment
register, the display-on command. Each step returns its error code at once. -/
def init_transmit (dev : Device) (bus : SpiBus) : Int × Device × SpiBus :=
  let init_commands : List Nat := [
    bu9795_reset,
    bu9795_set_blick_rate BU9795_BLINK_RATE_OFF,
    bu9795_set_display_control BU9795_DISPLAY_FREQ_80 BU9795_DISPLAY_WAVEFORM_FRAME
      BU9795_DISPLAY_POWER_NORMAL,
    bu9795_set_ic BU9795_IC_MSB_0 BU9795_IC_CLOCK_INTERMAL ]
  let (err, bus) := bu9795_write_commands dev bus init_commands init_commands.length
  if err ≠ 0 then (err, dev, bus) else
  let (err, bus) := bu9795_flush dev bus
  if err ≠ 0 then (err, dev, bus) else
  let display_command := bu9795_set_mode DISPLAY_ON DISPLAY_BIAS_LEVEL_1_3
  let (err, bus) := bu9795_write_commands dev bus [display_command] 1
  if err ≠ 0 then (err, dev, bus) else
  (0, dev, bus)

/-- Initialisation of the driver. `binding` is `device_get_binding`: the handle of
the device of that name, or `none` (NULL) when there is none. The pin
configuration of the chip-select line and the settle delay send nothing on
the SPI bus. -/
def bu9795_init (binding : String → Option Nat) (dev : Device) (bus : SpiBus) :
    Int × Device × SpiBus :=
  let config := dev.config
  let data := { dev.driver_data with spi_dev := binding config.spi_dev_name }
  match data.spi_dev with
  | none => (-EINVAL, { dev with driver_data := data }, bus)
  | some _ =>
    match config.spi_cs_dev_name with
    | some name =>
      let data := { data with spi_cs_dev := binding name }
      match data.spi_cs_dev with
      | none => (-EINVAL, { dev with driver_data := data }, bus)
      | some _ =>
        let data := { data with spi_cs_pin := config.spi_cs_pin }
        init_transmit { dev with driver_data := data } bus
    | none => init_transmit { dev with driver_data := data } bus

/-! ## Driver operations -/

/-- The call `memset(buf, c, n)` on a byte array. -/
def memset (buf : List Nat) (c n : Nat) : List Nat :=
  List.replicate n (u8 c) ++ buf.drop n

/-- Zeroes the local copy of the segment register, then flushes; the result of
the flush is dropped (the function returns `void`). -/
def clear_impl (dev : Device) (bus : SpiBus) : Device × SpiBus :=
  let data := dev.driver_data
  let dev := { dev with driver_data := { data with data := memset data.data 0 BU9795_SEG_REGISTER_SIZE } }
  let (_, bus) := bu9795_flush dev bus
  (dev, bus)

/-- Empty body in the source (the mapping is a TODO). -/
def set_segment_impl (dev : Device) (bus : SpiBus) (_segment _value : Nat) : Device × SpiBus :=
  (dev, bus)

/-- Empty body in the source (the mapping is a TODO). -/
def set_symbol_impl (dev : Device) (bus : SpiBus) (_symbol _state : Nat) : Device × SpiBus :=
  (dev, bus)

/-- The value `(int)ceil(log2(BU9795_SEG_REGISTER_SIZE * 8))`: 2^6 < 120 ≤ 2^7. -/
def max_pattern_stages : Int := 7

/-- Body of the fill loop of `set_test_pattern_impl`, on the pair of the running
`bit_pattern` and the segment register. -/
def pattern_step (pattern_width : Nat) (st : Nat × List Nat) (i : Nat) : Nat × List Nat :=
  let bit_pattern :=
    if pattern_width ≥ 8 ∧ i % (pattern_width / 8) = 0 then u8 (st.1 ^^^ 0xFF) else st.1
  (bit_pattern, st.2.set i bit_pattern)

def set_test_pattern_impl (dev : Device) (bus : SpiBus) (stage : Int) : Device × SpiBus :=
  let data := dev.driver_data
  let stage := Int.tmod stage (max_pattern_stages + 1)
  let pattern_width : Nat := 2 ^ (max_pattern_stages - stage).toNat
  let bit_pattern : Nat :=
    if pattern_width = 4 then 0xF0
    else if pattern_width = 2 then 0xCC
    else if pattern_width = 1 then 0xAA
    else 0x00
  let st := (List.range BU9795_SEG_REGISTER_SIZE).foldl (pattern_step pattern_width)
    (bit_pattern, data.data)
  let dev := { dev with driver_data := { data with data := st.2 } }
  let (_, bus) := bu9795_flush dev bus
  (dev, bus)

/-! ## Sequences of driver operations -/

/-- The operations of the driver on a bound device: the four entries of
`bu9795_driver_api_impl` and the flush. -/
inductive Op where
  | clear
  | set_test_pattern (stage : Int)
  | set_segment (segment value : Nat)
  | set_symbol (symbol state : Nat)
  | flush
deriving DecidableEq

/-- Runs one operation; results of type `int` that the caller drops are dropped. -/
def apply_op (s : Device × SpiBus) : Op → Device × SpiBus
  | Op.clear => clear_impl s.1 s.2
  | Op.set_test_pattern stage => set_test_pattern_impl s.1 s.2 stage
  | Op.set_segment segment value => set_segment_impl s.1 s.2 segment value
  | Op.set_symbol symbol state => set_symbol_impl s.1 s.2 symbol state
  | Op.flush => (s.1, (bu9795_flush s.1 s.2).2)

/-- Runs a sequence of operations, first to last. -/
def run_ops (s : Device × SpiBus) (ops : List Op) : Device × SpiBus :=
  ops.foldl apply_op s

/-! ## Reading the bus log -/

/-- A frame is an addressed-data transaction when its first byte on the wire
has bit 7 clear (a command byte has bit 7 set). -/
def is_data_frame (f : Frame) : Bool :=
  match f.wire with
  | a :: _ => a / 128 % 2 == 0
  | [] => false

/-- The payload (the bytes after the address byte) of the most recent
addressed-data transaction on the bus, if there is one. -/
def last_data_payload (log : List Frame) : Option (List Nat) :=
  (log.reverse.find? is_data_frame).map (fun f => f.wire.tail)

/-- The three frames of a complete initialisation, for a segment register
holding `data`: setup commands, segment data at address 0, display on. -/
def init_frames (data : List Nat) : List Frame :=
  [[[0xEA, 0xF0, 0xA6, 0xE8]], [[0x00], data], [[0xC8]]]

/-- The shadow register has its 15 bytes and equals the payload of the most
recent addressed-data transaction on the bus. -/
def shadow_in_sync (s : Device × SpiBus) : Prop :=
  s.1.driver_data.data.length = 15
    ∧ last_data_payload s.2.log = some s.1.driver_data.data

/-! ## Device resolution -/

/-- The devices named by the configuration resolve. -/
def resolvable (binding : String → Option Nat) (config : bu9795_config) : Prop :=
  (binding config.spi_dev_name).isSome = true
    ∧ ∀ name, config.spi_cs_dev_name = some name → (binding name).isSome = true

/-! ## Test pattern: the values computed inside `set_test_pattern_impl` -/

/-- The stage after `stage = stage % (max_pattern_stages + 1)` (the remainder of
C truncates towards zero). -/
def limited_stage (stage : Int) : Int :=
  Int.tmod stage (max_pattern_stages + 1)

/-- The value of `pattern_width` for a stage argument:
`(int)pow(2, max_pattern_stages - stage)` on the limited stage. -/
def pattern_width_of (stage : Int) : Nat :=
  2 ^ (max_pattern_stages - limited_stage stage).toNat

/-- The value `bit_pattern` starts with, chosen by the pattern width. -/
def initial_bit_pattern (pattern_width : Nat) : Nat :=
  if pattern_width = 4 then 0xF0
  else if pattern_width = 2 then 0xCC
  else if pattern_width = 1 then 0xAA
  else 0x00

/-- The segment register after the fill loop of `set_test_pattern_impl`. -/
def fill_pattern (pattern_width : Nat) (data : List Nat) : List Nat :=
  ((List.range BU9795_SEG_REGISTER_SIZE).foldl (pattern_step pattern_width)
    (initial_bit_pattern pattern_width, data)).2

/-- Bit k of the segment register, the 120 bits numbered from the most
significant bit of byte 0. -/
def shadow_bit (data : List Nat) (k : Nat) : Bool :=
  (data.getD (k / 8) 0).testBit (7 - k % 8)

/-- The byte the stripe description gives for byte i at pattern width w:
0xF0, 0xCC, 0xAA for the widths 4, 2, 1; for the widths from 8 on, 0xFF when
`i / (w / 8)` is even and 0x00 when it is odd. -/
def stripe_byte (w i : Nat) : Nat :=
  if w = 4 then 0xF0
  else if w = 2 then 0xCC
  else if w = 1 then 0xAA
  else if (i / (w / 8)) % 2 = 0 then 0xFF else 0x00

/-! ## Display facade (`src/display.c`)

The facade reaches the driver through the functions of `bu9795_driver.h`
(`bu9795_set_segment`, `bu9795_set_symbol`, `bu9795_flush`). They are a
parameter of the model: a record of functions on the state of the bound
device. -/

/-- Value of `ENOENT` in the C library's `errno.h`. -/
def ENOENT : Int := 2

/-- Store into a `uint32_t`: keep the low 32 bits. -/
def u32 (x : Nat) : Nat := x % 2 ^ 32

def DISPLAY_SYMBOL_TEMPERATURE_DECIMAL : Nat := 0x01
def DISPLAY_SYMBOL_BLUETOOTH : Nat := 0x02
def DISPLAY_SYMBOL_CELSIUS : Nat := 0x04
def DISPLAY_SYMBOL_HORIZONTAL_RULE : Nat := 0x08
def DISPLAY_SYMBOL_HUMIDITY_DECIMAL : Nat := 0x10
def DISPLAY_SYMBOL_HUMIDITY : Nat := 0x20
def DISPLAY_SYMBOL_ALL : Nat := 0xFF

/-- A sensor reading, `struct sensor_value`: integer part and millionths. -/
structure sensor_value where
  val1 : Int
  val2 : Int
deriving DecidableEq

/-- The driver functions the facade calls, on a device state `σ`:
`bu9795_set_segment(dev, segment, value)`, `bu9795_set_symbol(dev, symbols)`
and `bu9795_flush(dev)` with the code it gives back. -/
structure DriverApi (σ : Type) where
  set_segment : σ → Nat → Int → σ
  set_symbol : σ → Nat → σ
  flush : σ → Int × σ

/-- The two globals of `display.c`: `dev_segment` (`none` is NULL, `some d` a
bound device in state `d`) and `set_symbols`. -/
structure Display (σ : Type) where
  dev_segment : Option σ
  set_symbols : Nat

def display_set_symbols {σ : Type} (api : DriverApi σ) (st : Display σ) (symbols : Nat) :
    Int × Display σ :=
  let old_symbols := st.set_symbols
  let st := { st with set_symbols := u32 (st.set_symbols ||| symbols) }
  match st.dev_segment with
  | none => (-ENOENT, st)
  | some dev =>
    if st.set_symbols ≠ old_symbols then
      let dev := api.set_symbol dev st.set_symbols
      let dev := (api.flush dev).2
      (0, { st with dev_segment := some dev })
    else
      (0, st)

/-- The complement `~symbols` is taken on the promoted 32-bit value. -/
def display_clear_symbols {σ : Type} (api : DriverApi σ) (st : Display σ) (symbols : Nat) :
    Int × Display σ :=
  let old_symbols := st.set_symbols
  let st := { st with set_symbols := u32 (st.set_symbols &&& bnot symbols) }
  match st.dev_segment with
  | none => (-ENOENT, st)
  | some dev =>
    if st.set_symbols ≠ old_symbols then
      let dev := api.set_symbol dev st.set_symbols
      let dev := (api.flush dev).2
      (0, { st with dev_segment := some dev })
    else
      (0, st)

/-- The call `bu9795_flush(dev_segment)` that ends the three setters; its
result is not used. -/
def display_flush {σ : Type} (api : DriverApi σ) (st : Display σ) : Display σ :=
  match st.dev_segment with
  | none => st
  | some dev => { st with dev_segment := some (api.flush dev).2 }

def display_set_temperature {σ : Type} (api : DriverApi σ) (st : Display σ)
    (value : Option sensor_value) : Int × Display σ :=
  match st.dev_segment with
  | none => (-ENOENT, st)
  | some dev =>
    let st :=
      match value with
      | none =>
        let dev := api.set_segment dev 0 (-1)
        let dev := api.set_segment dev 1 (-1)
        let dev := api.set_segment dev 2 (-1)
        (display_clear_symbols api { st with dev_segment := some dev }
          DISPLAY_SYMBOL_TEMPERATURE_DECIMAL).2
      | some value =>
        let dev := api.set_segment dev 0 (Int.tdiv value.val1 10)
        let dev := api.set_segment dev 1 (Int.tmod value.val1 10)
        let dev := api.set_segment dev 2 (Int.tdiv value.val2 100000)
        (display_set_symbols api { st with dev_segment := some dev }
          DISPLAY_SYMBOL_TEMPERATURE_DECIMAL).2
    (0, display_flush api st)

def display_set_humidity {σ : Type} (api : DriverApi σ) (st : Display σ)
    (value : Option sensor_value) : Int × Display σ :=
  match st.dev_segment with
  | none => (-ENOENT, st)
  | some dev =>
    let st :=
      match value with
      | none =>
        let dev := api.set_segment dev 3 (-1)
        let dev := api.set_segment dev 4 (-1)
        let dev := api.set_segment dev 5 (-1)
        (display_clear_symbols api { st with dev_segment := some dev }
          DISPLAY_SYMBOL_HUMIDITY_DECIMAL).2
      | some value =>
        let dev := api.set_segment dev 3 (Int.tdiv value.val1 10)
        let dev := api.set_segment dev 4 (Int.tmod value.val1 10)
        let dev := api.set_segment dev 5 (Int.tdiv value.val2 100000)
        (display_set_symbols api { st with dev_segment := some dev }
          DISPLAY_SYMBOL_HUMIDITY_DECIMAL).2
    (0, display_flush api st)

def display_set_battery {σ : Type} (api : DriverApi σ) (st : Display σ) (percent : Int) :
    Int × Display σ :=
  match st.dev_segment with
  | none => (-ENOENT, st)
  | some dev =>
    let dev :=
      if percent > 80 then api.set_segment dev 6 6
      else if percent > 60 then api.set_segment dev 6 5
      else if percent > 40 then api.set_segment dev 6 4
      else if percent > 20 then api.set_segment dev 6 3
      else if percent > 0 then api.set_segment dev 6 2
      else api.set_segment dev 6 1
    (0, display_flush api { st with dev_segment := some dev })

/-! ## Observing the facade -/

/-- One call made through the driver functions. -/
inductive DriverCall where
  | set_segment (segment : Nat) (value : Int)
  | set_symbol (symbols : Nat)
  | flush
deriving DecidableEq

/-- The driver functions that only record their calls, in order; the flush
reports success. -/
def trace_api : DriverApi (List DriverCall) :=
  { set_segment := fun t segment value => t ++ [DriverCall.set_segment segment value],
    set_symbol := fun t symbols => t ++ [DriverCall.set_symbol symbols],
    flush := fun t => (0, t ++ [DriverCall.flush]) }

/-- The driver functions on a device whose flush always fails with `code`. -/
def failing_api (code : Int) : DriverApi (List DriverCall) :=
  { trace_api with flush := fun t => (code, t ++ [DriverCall.flush]) }

/-- The calls recorded on the bound device (none when nothing is bound). -/
def calls_of (st : Display (List DriverCall)) : List DriverCall :=
  st.dev_segment.getD []

/-- The number of flushes among recorded calls. -/
def flush_count (calls : List DriverCall) : Nat :=
  calls.count DriverCall.flush

/-- The battery icon level by the threshold table: 6 above 80, 5 above 60,
4 above 40, 3 above 20, 2 above 0, else 1. -/
def battery_icon_level (percent : Int) : Int :=
  if percent > 80 then 6
  else if percent > 60 then 5
  else if percent > 40 then 4
  else if percent > 20 then 3
  else if percent > 0 then 2
  else 1

/-! ## Sample values -/

/-- A bus on which every write succeeds and nothing has been sent yet. -/
def bus_ok : SpiBus := { log := [], resp := fun _ => 0 }

/-- A driver instance whose segment register holds some lit segments. -/
def dev_lit : Device :=
  { driver_data := { spi_dev := some 1, spi_cs_dev := none, spi_cs_pin := 0,
                     data := [0xFF, 0x80, 0x01, 0x7E, 0, 0, 0, 0, 0, 0, 0, 0, 0, 0xAA, 0x55] },
    config := { spi_dev_name := "SPI_0", spi_cs_dev_name := none, spi_cs_pin := 0 } }

/-- A bus on which the second write fails with code -5, every other succeeds. -/
def bus_flush_fails : SpiBus := { log := [], resp := fun k => if k = 1 then -5 else 0 }

/-- A bus on which every write fails with code -5. -/
def bus_down : SpiBus := { log := [], resp := fun _ => -5 }

/-- A facade with a bound display device, no call made yet, no symbol set. -/
def display_bound : Display (List DriverCall) := { dev_segment := some [], set_symbols := 0 }

/-- A facade with no display device bound and the symbol state `s`. -/
def display_unbound (σ : Type) (s : Nat) : Display σ := { dev_segment := none, set_symbols := s }

/-- A reading of 23.4 (val1 = 23, val2 = 400000 millionths). -/
def reading_23_4 : sensor_value := { val1 := 23, val2 := 400000 }

/-- The static instance of the source: `bu9795_data_0` with its zeroed segment
register, and a configuration naming a bus and a chip-select device. -/
def dev_0 : Device :=
  { driver_data := { spi_dev := none, spi_cs_dev := none, spi_cs_pin := 0,
                     data := List.replicate 15 0 },
    config := { spi_dev_name := "SPI_0", spi_cs_dev_name := some "GPIO_0", spi_cs_pin := 5 } }

end BU9795

namespace BU9795

/-! ## Auxiliary facts: bytes and loops -/

theorem length_tag_commands (commands : List Nat) (n : Nat) :
    (tag_commands commands n).length = commands.length := by
  induction n with
  | zero => simp [tag_commands]
  | succ n ih =>
    simp only [tag_commands, List.range_succ, List.foldl_append, List.foldl_cons,
      List.foldl_nil] at ih ⊢
    simp [tag_step, ih]

theorem tag_commands_succ (commands : List Nat) (n : Nat) :
    tag_commands commands (n + 1) = tag_step (tag_commands commands n) n := by
  simp [tag_commands, List.range_succ, List.foldl_append]

theorem getElem?_tag_commands (commands : List Nat) (n j : Nat) :
    (tag_commands commands n)[j]? =
      if j < n then commands[j]?.map (fun c => u8 (c ||| BU9795_CMD_DATA_BIT))
      else commands[j]? := by
  induction n generalizing j with
  | zero => simp [tag_commands]
  | succ n ih =>
    have hlen := length_tag_commands commands n
    have hself : (tag_commands commands n)[n]? = commands[n]? := by
      rw [ih n]; simp
    rw [tag_commands_succ, tag_step, List.getElem?_set, hlen]
    by_cases hj : n = j
    · subst hj
      simp only [if_true, Nat.lt_succ_self]
      by_cases hn : n < commands.length
      · simp [hn, hself, List.getElem?_eq_getElem hn]
      · have h2 : commands[n]? = none := List.getElem?_eq_none (by omega)
        simp [hn, h2]
    · rw [if_neg hj, ih j]
      by_cases hjn : j < n
      · rw [if_pos hjn, if_pos (by omega)]
      · rw [if_neg hjn, if_neg (by omega)]

set_option maxRecDepth 100000 in
theorem byte_or_data_bit (c : Nat) (h : c < 256) :
    u8 (c ||| BU9795_CMD_DATA_BIT) = c ||| 0x80 ∧ (c ||| 0x80) < 256
      ∧ (c ||| 0x80) / 128 % 2 = 1 ∧ (c ||| 0x80) % 128 = c % 128 :=
  (by decide : ∀ c : Fin 256,
    u8 (c.val ||| BU9795_CMD_DATA_BIT) = c.val ||| 0x80 ∧ (c.val ||| 0x80) < 256
      ∧ (c.val ||| 0x80) / 128 % 2 = 1 ∧ (c.val ||| 0x80) % 128 = c.val % 128) ⟨c, h⟩

set_option maxRecDepth 100000 in
theorem address_byte_eq (addr : Nat) (h : addr < 256) :
    u8 (bu9795_set_address addr &&& bnot BU9795_CMD_DATA_BIT) = addr &&& 0x1F
      ∧ (addr &&& 0x1F) < 32 :=
  (by decide : ∀ a : Fin 256,
    u8 (bu9795_set_address a.val &&& bnot BU9795_CMD_DATA_BIT) = a.val &&& 0x1F
      ∧ (a.val &&& 0x1F) < 32) ⟨addr, h⟩

theorem take_tag_commands (commands : List Nat) :
    (tag_commands commands commands.length).take commands.length
      = commands.map (fun c => u8 (c ||| BU9795_CMD_DATA_BIT)) := by
  apply List.ext_getElem?
  intro j
  rw [List.getElem?_take, getElem?_tag_commands, List.getElem?_map]
  by_cases hj : j < commands.length
  · simp [hj]
  · simp [hj, List.getElem?_eq_none (Nat.le_of_not_lt hj)]

/-! ## Bus transport: framing -/

/-- C1. For a sequence of command bytes of length n (0..255), the call
`bu9795_write_commands` hands exactly one frame to the bus; it has a single
buffer whose bytes are, in order and with the same length n, each input byte
OR 0x80: bit 7 is set and the low seven bits are those of the input. The
code of the bus is returned. -/
theorem bu9795_write_commands_tags_burst (dev : Device) (bus : SpiBus) (commands : List Nat)
    (_hlen : commands.length ≤ 255) (hbyte : ∀ c ∈ commands, c < 256) :
    (bu9795_write_commands dev bus commands commands.length).2.log
        = bus.log ++ [[commands.map (fun c => c ||| 0x80)]]
      ∧ Frame.wire [commands.map (fun c => c ||| 0x80)] = commands.map (fun c => c ||| 0x80)
      ∧ (commands.map (fun c => c ||| 0x80)).length = commands.length
      ∧ (∀ c ∈ commands, (c ||| 0x80) / 128 % 2 = 1 ∧ (c ||| 0x80) % 128 = c % 128)
      ∧ (bu9795_write_commands dev bus commands commands.length).1
          = bus.resp bus.log.length := by
  refine ⟨?_, ?_, ?_, ?_, ?_⟩
  · have hmap : commands.map (fun c => u8 (c ||| BU9795_CMD_DATA_BIT))
        = commands.map (fun c => c ||| 0x80) :=
      List.map_congr_left (fun c hc => (byte_or_data_bit c (hbyte c hc)).1)
    simp only [bu9795_write_commands, spi_write, take_tag_commands, hmap]
  · simp [Frame.wire]
  · simp
  · intro c hc
    exact ⟨(byte_or_data_bit c (hbyte c hc)).2.2.1, (byte_or_data_bit c (hbyte c hc)).2.2.2⟩
  · simp [bu9795_write_commands, spi_write]

theorem bu9795_write_commands_tags_burst_witness :
    [0x6A, 0x70, 0x26].length ≤ 255 ∧ (∀ c ∈ [0x6A, 0x70, 0x26], c < 256)
      ∧ (bu9795_write_commands dev_0 bus_ok [0x6A, 0x70, 0x26] 3).2.log
          = [[[0xEA, 0xF0, 0xA6]]] :=
  ⟨by decide, by decide,
    (bu9795_write_commands_tags_burst dev_0 bus_ok [0x6A, 0x70, 0x26]
      (by decide) (by decide)).1⟩

/-- C2. For an address byte addr (0..255) and a payload of length len (0..255),
the call `bu9795_write_data` hands exactly one frame to the bus: its first
byte is `addr & 0x1F`, whose bit 7 is 0, and the len payload bytes follow
unchanged and in order. The code of the bus is returned. -/
theorem bu9795_write_data_frame (dev : Device) (bus : SpiBus) (addr : Nat) (payload : List Nat)
    (haddr : addr < 256) (_hlen : payload.length ≤ 255) :
    (bu9795_write_data dev bus addr payload payload.length).2.log
        = bus.log ++ [[[addr &&& 0x1F], payload]]
      ∧ Frame.wire [[addr &&& 0x1F], payload] = (addr &&& 0x1F) :: payload
      ∧ (addr &&& 0x1F) / 128 % 2 = 0
      ∧ (bu9795_write_data dev bus addr payload payload.length).1
          = bus.resp bus.log.length := by
  have h := address_byte_eq addr haddr
  refine ⟨?_, ?_, ?_, ?_⟩
  · simp only [bu9795_write_data, spi_write, h.1, List.take_length]
  · simp [Frame.wire]
  · have := h.2
    omega
  · simp [bu9795_write_data, spi_write]

theorem bu9795_write_data_frame_witness :
    0xE3 < 256 ∧ [0xFF, 0x80, 0x01].length ≤ 255
      ∧ (bu9795_write_data dev_0 bus_ok 0xE3 [0xFF, 0x80, 0x01] 3).2.log
          = [[[0x03], [0xFF, 0x80, 0x01]]] :=
  ⟨by decide, by decide,
    (bu9795_write_data_frame dev_0 bus_ok 0xE3 [0xFF, 0x80, 0x01] (by decide) (by decide)).1⟩

/-! ## Flush -/

theorem bu9795_flush_eq (dev : Device) (bus : SpiBus) (h : dev.driver_data.data.length = 15) :
    bu9795_flush dev bus
      = (bus.resp bus.log.length,
          { bus with log := bus.log ++ [[[0x00], dev.driver_data.data]] }) := by
  have htake : List.take 15 dev.driver_data.data = dev.driver_data.data := by
    rw [← h, List.take_length]
  have haddr : u8 (bu9795_set_address 0 &&& bnot BU9795_CMD_DATA_BIT) = 0 := by decide
  simp only [bu9795_flush, bu9795_write_data, spi_write, BU9795_SEG_REGISTER_SIZE, htake, haddr]

/-- C3. For every 15-byte content of the shadow register, `bu9795_flush` hands
exactly one frame to the bus, the addressed-data transaction at address 0
(address byte 0x00) whose payload is the 15 bytes of the shadow register; it
returns the code of the bus and changes nothing in the driver: a second
flush sends the same frame again. -/
theorem bu9795_flush_round_trip (dev : Device) (bus : SpiBus)
    (h : dev.driver_data.data.length = 15) :
    (bu9795_flush dev bus).2.log = bus.log ++ [[[0x00], dev.driver_data.data]]
      ∧ Frame.wire [[0x00], dev.driver_data.data] = 0x00 :: dev.driver_data.data
      ∧ is_data_frame [[0x00], dev.driver_data.data] = true
      ∧ last_data_payload (bu9795_flush dev bus).2.log = some dev.driver_data.data
      ∧ (bu9795_flush dev bus).1 = bus.resp bus.log.length
      ∧ (bu9795_flush dev (bu9795_flush dev bus).2).2.log
          = bus.log ++ [[[0x00], dev.driver_data.data], [[0x00], dev.driver_data.data]] := by
  refine ⟨?_, ?_, ?_, ?_, ?_, ?_⟩
  · rw [bu9795_flush_eq dev bus h]
  · simp [Frame.wire]
  · simp [is_data_frame, Frame.wire]
  · rw [bu9795_flush_eq dev bus h]
    simp [last_data_payload, is_data_frame, Frame.wire]
  · rw [bu9795_flush_eq dev bus h]
  · rw [bu9795_flush_eq dev bus h, bu9795_flush_eq dev _ h]
    simp

theorem bu9795_flush_round_trip_witness :
    dev_0.driver_data.data.length = 15
      ∧ (bu9795_flush dev_0 bus_ok).2.log
          = [[[0x00], [0, 0, 0, 0, 0, 0, 0, 0, 0, 0, 0, 0, 0, 0, 0]]] :=
  ⟨by decide, (bu9795_flush_round_trip dev_0 bus_ok (by decide)).1⟩

/-! ## Initialisation -/

theorem init_transmit_eq (dev : Device) (bus : SpiBus) (h : dev.driver_data.data.length = 15) :
    init_transmit dev bus =
      if bus.resp bus.log.length ≠ 0 then
        (bus.resp bus.log.length, dev,
          { bus with log := bus.log ++ (init_frames dev.driver_data.data).take 1 })
      else if bus.resp (bus.log.length + 1) ≠ 0 then
        (bus.resp (bus.log.length + 1), dev,
          { bus with log := bus.log ++ (init_frames dev.driver_data.data).take 2 })
      else
        (bus.resp (bus.log.length + 2), dev,
          { bus with log := bus.log ++ init_frames dev.driver_data.data }) := by
  have h1 : List.take 4 (tag_commands [bu9795_reset, bu9795_set_blick_rate BU9795_BLINK_RATE_OFF,
      bu9795_set_display_control BU9795_DISPLAY_FREQ_80 BU9795_DISPLAY_WAVEFORM_FRAME
        BU9795_DISPLAY_POWER_NORMAL,
      bu9795_set_ic BU9795_IC_MSB_0 BU9795_IC_CLOCK_INTERMAL] 4) = [0xEA, 0xF0, 0xA6, 0xE8] := by
    decide
  have h2 : List.take 1 (tag_commands [bu9795_set_mode DISPLAY_ON DISPLAY_BIAS_LEVEL_1_3] 1)
      = [0xC8] := by decide
  simp only [init_transmit, bu9795_write_commands, spi_write, List.length_cons, List.length_nil,
    h1, h2, bu9795_flush_eq _ _ h, init_frames]
  by_cases e1 : bus.resp bus.log.length = 0
  · by_cases e2 : bus.resp (bus.log.length + 1) = 0
    · by_cases e3 : bus.resp (bus.log.length + 2) = 0
      · simp [e1, e2, e3]
      · simp [e1, e2, e3]
    · simp [e1, e2]
  · simp [e1]

theorem bu9795_init_bound (binding : String → Option Nat) (dev : Device) (bus : SpiBus)
    (hres : resolvable binding dev.config) :
    ∃ bound : Device, bound.driver_data.data = dev.driver_data.data
      ∧ bu9795_init binding dev bus = init_transmit bound bus := by
  obtain ⟨hspi, hcs⟩ := hres
  obtain ⟨handle, hh⟩ := Option.isSome_iff_exists.mp hspi
  cases hname : dev.config.spi_cs_dev_name with
  | none =>
    refine ⟨{ dev with driver_data := { dev.driver_data with spi_dev := some handle } }, rfl, ?_⟩
    simp [bu9795_init, hh, hname]
  | some name =>
    obtain ⟨cs, hc⟩ := Option.isSome_iff_exists.mp (hcs name hname)
    refine ⟨{ dev with driver_data := { dev.driver_data with
      spi_dev := some handle, spi_cs_dev := some cs, spi_cs_pin := dev.config.spi_cs_pin } },
      rfl, ?_⟩
    simp [bu9795_init, hh, hname, hc]

/-- C4. With resolvable devices, a zeroed shadow register and a bus on which
every write succeeds, `bu9795_init` returns 0 and hands exactly three frames
to the bus, in this order: the command burst 0xEA, 0xF0, 0xA6, 0xE8 (reset,
blink rate off, display control 80Hz / frame waveform / normal power, IC with
MSB 0 and internal clock, each tagged with bit 7); the addressed-data
transaction with address byte 0x00 and 15 zero bytes; the command burst 0xC8
(mode display-on, bias 1/3, tagged with bit 7). -/
theorem bu9795_init_sequence (binding : String → Option Nat) (dev : Device) (bus : SpiBus)
    (hres : resolvable binding dev.config)
    (hzero : dev.driver_data.data = List.replicate 15 0)
    (hok : ∀ k, bus.resp k = 0) :
    (bu9795_init binding dev bus).1 = 0
      ∧ (bu9795_init binding dev bus).2.2.log
          = bus.log ++ [[[0xEA, 0xF0, 0xA6, 0xE8]],
                        [[0x00], [0, 0, 0, 0, 0, 0, 0, 0, 0, 0, 0, 0, 0, 0, 0]],
                        [[0xC8]]]
      ∧ [bu9795_reset ||| 0x80, bu9795_set_blick_rate BU9795_BLINK_RATE_OFF ||| 0x80,
          bu9795_set_display_control BU9795_DISPLAY_FREQ_80 BU9795_DISPLAY_WAVEFORM_FRAME
            BU9795_DISPLAY_POWER_NORMAL ||| 0x80,
          bu9795_set_ic BU9795_IC_MSB_0 BU9795_IC_CLOCK_INTERMAL ||| 0x80]
          = [0xEA, 0xF0, 0xA6, 0xE8]
      ∧ bu9795_set_mode DISPLAY_ON DISPLAY_BIAS_LEVEL_1_3 ||| 0x80 = 0xC8 := by
  obtain ⟨bound, hdata, hinit⟩ := bu9795_init_bound binding dev bus hres
  have hlen : bound.driver_data.data.length = 15 := by rw [hdata, hzero]; rfl
  rw [hinit, init_transmit_eq bound bus hlen]
  refine ⟨?_, ?_, by decide, by decide⟩
  · simp [hok]
  · simp [hok, hdata, hzero, init_frames]

theorem bu9795_init_sequence_witness :
    resolvable (fun _ => some 1) dev_0.config
      ∧ dev_0.driver_data.data = List.replicate 15 0
      ∧ (∀ k, bus_ok.resp k = 0)
      ∧ (bu9795_init (fun _ => some 1) dev_0 bus_ok).1 = 0 :=
  ⟨⟨rfl, fun _ _ => rfl⟩, rfl, fun _ => rfl,
    (bu9795_init_sequence (fun _ => some 1) dev_0 bus_ok ⟨rfl, fun _ _ => rfl⟩ rfl
      (fun _ => rfl)).1⟩

/-- C5. With resolvable devices: if the k-th transmission of `bu9795_init`
(k = 0 the 4-byte command burst, k = 1 the 15-byte flush, k = 2 the 1-byte
mode command) is the first whose bus write returns a non-zero code e, then
`bu9795_init` returns exactly e, and the bus has received the frames up to
and including the k-th and none of the later ones. -/
theorem bu9795_init_aborts_on_first_failure (binding : String → Option Nat) (dev : Device)
    (bus : SpiBus) (hres : resolvable binding dev.config)
    (hlen : dev.driver_data.data.length = 15)
    (k : Nat) (hk : k < 3) (e : Int) (he : e ≠ 0)
    (hbefore : ∀ j, j < k → bus.resp (bus.log.length + j) = 0)
    (hfail : bus.resp (bus.log.length + k) = e) :
    (bu9795_init binding dev bus).1 = e
      ∧ (bu9795_init binding dev bus).2.2.log
          = bus.log ++ (init_frames dev.driver_data.data).take (k + 1)
      ∧ ((init_frames dev.driver_data.data).take (k + 1)).length = k + 1 := by
  obtain ⟨bound, hdata, hinit⟩ := bu9795_init_bound binding dev bus hres
  have hlen2 : bound.driver_data.data.length = 15 := by rw [hdata]; exact hlen
  rw [hinit, init_transmit_eq bound bus hlen2, hdata]
  have hk3 : k = 0 ∨ k = 1 ∨ k = 2 := by omega
  rcases hk3 with rfl | rfl | rfl
  · have h0 : bus.resp bus.log.length = e := by simpa using hfail
    simp [h0, he, init_frames]
  · have h0 : bus.resp bus.log.length = 0 := by simpa using hbefore 0 (by omega)
    simp [h0, hfail, he, init_frames]
  · have h0 : bus.resp bus.log.length = 0 := by simpa using hbefore 0 (by omega)
    have h1 : bus.resp (bus.log.length + 1) = 0 := hbefore 1 (by omega)
    simp [h0, h1, hfail, init_frames]

theorem bu9795_init_aborts_on_first_failure_witness :
    resolvable (fun _ => some 1) dev_0.config
      ∧ (bu9795_init (fun _ => some 1) dev_0 bus_flush_fails).1 = -5
      ∧ (bu9795_init (fun _ => some 1) dev_0 bus_flush_fails).2.2.log
          = [[[0xEA, 0xF0, 0xA6, 0xE8]],
             [[0x00], [0, 0, 0, 0, 0, 0, 0, 0, 0, 0, 0, 0, 0, 0, 0]]] :=
  have h := bu9795_init_aborts_on_first_failure (fun _ => some 1) dev_0 bus_flush_fails
    ⟨rfl, fun _ _ => rfl⟩ rfl 1 (by decide) (-5) (by decide)
    (fun j hj => by
      have hj0 : j = 0 := by omega
      subst hj0
      rfl)
    rfl
  ⟨⟨rfl, fun _ _ => rfl⟩, h.1, h.2.1⟩

/-- C10. If the SPI bus device cannot be resolved, or a chip-select device name
is configured and cannot be resolved, `bu9795_init` returns `-EINVAL` (which
is not 0), hands no frame to the bus, and leaves the shadow register as it
was. -/
theorem bu9795_init_device_not_found (binding : String → Option Nat) (dev : Device)
    (bus : SpiBus)
    (h : binding dev.config.spi_dev_name = none
      ∨ ∃ name, dev.config.spi_cs_dev_name = some name ∧ binding name = none) :
    (bu9795_init binding dev bus).1 = -EINVAL
      ∧ -EINVAL ≠ 0
      ∧ (bu9795_init binding dev bus).2.2 = bus
      ∧ (bu9795_init binding dev bus).2.1.driver_data.data = dev.driver_data.data := by
  have hne : -EINVAL ≠ 0 := by decide
  cases hspi : binding dev.config.spi_dev_name with
  | none => simp [bu9795_init, hspi, hne]
  | some handle =>
    rcases h with h | ⟨name, hname, hnone⟩
    · rw [hspi] at h; cases h
    · simp [bu9795_init, hspi, hname, hnone, hne]

theorem bu9795_init_device_not_found_witness :
    (fun name => if name = "SPI_0" then some 1 else none) dev_0.config.spi_dev_name = some 1
      ∧ (bu9795_init (fun name => if name = "SPI_0" then some 1 else none) dev_0 bus_ok).1 = -22
      ∧ (bu9795_init (fun name => if name = "SPI_0" then some 1 else none) dev_0 bus_ok).2.2
          = bus_ok :=
  have h := bu9795_init_device_not_found
    (fun name => if name = "SPI_0" then some 1 else none) dev_0 bus_ok
    (Or.inr ⟨"GPIO_0", rfl, by decide⟩)
  ⟨by decide, h.1, h.2.2.1⟩

/-! ## Command encoder -/

theorem and_24_cases (x : Nat) : x &&& 24 = 0 ∨ x &&& 24 = 8 ∨ x &&& 24 = 16 ∨ x &&& 24 = 24 := by
  have h1 : (x &&& 24) &&& 24 = x &&& 24 := by rw [Nat.and_assoc, Nat.and_self]
  have h2 : x &&& 24 ≤ 24 := Nat.and_le_right
  generalize x &&& 24 = v at h1 h2
  interval_cases v <;> first | omega | (exfalso; revert h1; decide)

theorem and_4_cases (x : Nat) : x &&& 4 = 0 ∨ x &&& 4 = 4 := by
  have h1 : (x &&& 4) &&& 4 = x &&& 4 := by rw [Nat.and_assoc, Nat.and_self]
  have h2 : x &&& 4 ≤ 4 := Nat.and_le_right
  generalize x &&& 4 = v at h1 h2
  interval_cases v <;> first | omega | (exfalso; revert h1; decide)

theorem and_3_cases (x : Nat) : x &&& 3 = 0 ∨ x &&& 3 = 1 ∨ x &&& 3 = 2 ∨ x &&& 3 = 3 := by
  have h2 : x &&& 3 ≤ 3 := Nat.and_le_right
  omega

theorem bu9795_set_display_control_eq (freq waveform power : Nat) :
    bu9795_set_display_control freq waveform power
      = u8 (0x20 ||| (freq &&& 24) ||| (waveform &&& 4) ||| (power &&& 3)) := rfl

/-- C6. For every (freq, waveform, power) triple, the byte returned by
`bu9795_set_display_control` has bits [7:5] = 001, bits [4:3] equal to bits
[4:3] of freq, bit 2 equal to bit 2 of waveform and bits [1:0] equal to bits
[1:0] of power; two triples that agree inside the three field masks give the
same byte, so no input bit outside its own field mask has any influence. -/
theorem bu9795_set_display_control_fields (freq waveform power : Nat) :
    bu9795_set_display_control freq waveform power < 256
      ∧ bu9795_set_display_control freq waveform power / 32 = 1
      ∧ bu9795_set_display_control freq waveform power &&& 0x18 = freq &&& 0x18
      ∧ bu9795_set_display_control freq waveform power &&& 0x04 = waveform &&& 0x04
      ∧ bu9795_set_display_control freq waveform power &&& 0x03 = power &&& 0x03
      ∧ ∀ freq2 waveform2 power2 : Nat,
          (freq2 &&& 0x18 = freq &&& 0x18 ∧ waveform2 &&& 0x04 = waveform &&& 0x04
            ∧ power2 &&& 0x03 = power &&& 0x03) →
          bu9795_set_display_control freq2 waveform2 power2
            = bu9795_set_display_control freq waveform power := by
  refine ⟨?_, ?_, ?_, ?_, ?_, ?_⟩
  on_goal 6 =>
    intro freq2 waveform2 power2 h
    rw [bu9795_set_display_control_eq, bu9795_set_display_control_eq, h.1, h.2.1, h.2.2]
  all_goals
    rw [bu9795_set_display_control_eq]
    rcases and_24_cases freq with hf | hf | hf | hf <;>
    rcases and_4_cases waveform with hw | hw <;>
    rcases and_3_cases power with hp | hp | hp | hp <;>
    rw [hf, hw, hp] <;> decide

theorem bu9795_set_address_eq_mod (a : Nat) : bu9795_set_address a = a % 32 := by
  have h := Nat.and_pow_two_sub_one_eq_mod a 5
  have h2 : bu9795_set_address a = u8 (0 ||| (a &&& (2 ^ 5 - 1))) := rfl
  rw [h2, h, Nat.zero_or, u8]
  omega

/-- C7. For every a in 0..31, `bu9795_set_address a = a`: bits [7:5] of the
result are 0 and bits [4:0] are a. For every a in 32..255,
`bu9795_set_address a = bu9795_set_address (a mod 32)`. -/
theorem bu9795_set_address_window (a : Nat) :
    (a < 32 → bu9795_set_address a = a ∧ bu9795_set_address a / 32 = 0
        ∧ bu9795_set_address a % 32 = a)
      ∧ (32 ≤ a ∧ a ≤ 255 → bu9795_set_address a = bu9795_set_address (a % 32)) := by
  constructor
  · intro h
    rw [bu9795_set_address_eq_mod]
    omega
  · intro _
    rw [bu9795_set_address_eq_mod, bu9795_set_address_eq_mod]
    omega

theorem bu9795_set_address_window_witness :
    (bu9795_set_address 17 = 17 ∧ bu9795_set_address 17 / 32 = 0
        ∧ bu9795_set_address 17 % 32 = 17)
      ∧ bu9795_set_address 0xE3 = bu9795_set_address (0xE3 % 32) :=
  ⟨(bu9795_set_address_window 17).1 (by decide),
    (bu9795_set_address_window 0xE3).2 (by decide)⟩

/-! ## Driver operations -/

theorem memset_all (buf : List Nat) (h : buf.length = 15) :
    memset buf 0 BU9795_SEG_REGISTER_SIZE = List.replicate 15 0 := by
  have hdrop : buf.drop 15 = [] := List.drop_eq_nil_of_le (by omega)
  simp [memset, BU9795_SEG_REGISTER_SIZE, hdrop, u8]

theorem last_data_payload_append (log : List Frame) (f : Frame) (h : is_data_frame f = true) :
    last_data_payload (log ++ [f]) = some f.wire.tail := by
  simp [last_data_payload, List.reverse_append, List.find?_cons, h]

theorem last_data_payload_flush (log : List Frame) (data : List Nat) :
    last_data_payload (log ++ [[[0x00], data]]) = some data := by
  rw [last_data_payload_append]
  · simp [Frame.wire]
  · simp [is_data_frame, Frame.wire]

theorem clear_impl_eq (dev : Device) (bus : SpiBus) (h : dev.driver_data.data.length = 15) :
    clear_impl dev bus
      = ({ dev with driver_data := { dev.driver_data with data := List.replicate 15 0 } },
         { bus with log := bus.log ++ [[[0x00], List.replicate 15 0]] }) := by
  simp only [clear_impl, memset_all _ h]
  rw [bu9795_flush_eq _ _ (by simp)]

/-- C8. For every prior 15-byte content of the shadow register, after
`clear_impl` all 15 shadow bytes are zero and exactly one frame has been handed
to the bus: the addressed-data transaction with address byte 0x00 followed by
15 zero bytes. The frame carries the zeroed register, so the zeroing comes
before the flush. -/
theorem clear_impl_zeroes_then_flushes (dev : Device) (bus : SpiBus)
    (h : dev.driver_data.data.length = 15) :
    (clear_impl dev bus).1.driver_data.data = [0, 0, 0, 0, 0, 0, 0, 0, 0, 0, 0, 0, 0, 0, 0]
      ∧ (clear_impl dev bus).2.log
          = bus.log ++ [[[0x00], [0, 0, 0, 0, 0, 0, 0, 0, 0, 0, 0, 0, 0, 0, 0]]]
      ∧ Frame.wire [[0x00], [0, 0, 0, 0, 0, 0, 0, 0, 0, 0, 0, 0, 0, 0, 0]]
          = [0, 0, 0, 0, 0, 0, 0, 0, 0, 0, 0, 0, 0, 0, 0, 0] := by
  rw [clear_impl_eq dev bus h]
  exact ⟨rfl, rfl, rfl⟩

theorem clear_impl_zeroes_then_flushes_witness :
    dev_lit.driver_data.data.length = 15
      ∧ (clear_impl dev_lit bus_ok).1.driver_data.data
          = [0, 0, 0, 0, 0, 0, 0, 0, 0, 0, 0, 0, 0, 0, 0] :=
  ⟨by decide, (clear_impl_zeroes_then_flushes dev_lit bus_ok (by decide)).1⟩

theorem length_pattern_fold (w : Nat) (l : List Nat) (st : Nat × List Nat) :
    (l.foldl (pattern_step w) st).2.length = st.2.length := by
  induction l generalizing st with
  | nil => rfl
  | cons i l ih => rw [List.foldl_cons, ih]; simp [pattern_step]

theorem set_test_pattern_impl_sync (dev : Device) (bus : SpiBus) (stage : Int)
    (h : dev.driver_data.data.length = 15) :
    shadow_in_sync (set_test_pattern_impl dev bus stage) := by
  simp only [set_test_pattern_impl]
  rw [bu9795_flush_eq _ _ (by rw [length_pattern_fold]; exact h)]
  exact ⟨by rw [length_pattern_fold]; exact h, last_data_payload_flush _ _⟩

theorem apply_op_sync (s : Device × SpiBus) (op : Op) (h : shadow_in_sync s) :
    shadow_in_sync (apply_op s op) := by
  cases op with
  | clear =>
    simp only [apply_op]
    rw [clear_impl_eq _ _ h.1]
    exact ⟨by simp, last_data_payload_flush _ _⟩
  | set_test_pattern stage => exact set_test_pattern_impl_sync _ _ stage h.1
  | set_segment segment value => exact h
  | set_symbol symbol state => exact h
  | flush =>
    simp only [apply_op]
    rw [bu9795_flush_eq _ _ h.1]
    exact ⟨h.1, last_data_payload_flush _ _⟩

theorem run_ops_sync (ops : List Op) (s : Device × SpiBus) (h : shadow_in_sync s) :
    shadow_in_sync (run_ops s ops) := by
  induction ops generalizing s with
  | nil => exact h
  | cons op ops ih => exact ih _ (apply_op_sync s op h)

/-- C9. Starting from a driver initialised successfully (resolvable devices,
a 15-byte shadow register, a bus on which every write succeeds, so that
`bu9795_init` returns 0), after any sequence of driver operations (clear,
set_test_pattern at any stage, set_segment, set_symbol, flush) the payload of
the most recent addressed-data transaction on the bus equals the current
15-byte shadow register. The sequence is arbitrary, so the same holds after
each of its operations. -/
theorem shadow_matches_last_flush (binding : String → Option Nat) (dev : Device) (bus : SpiBus)
    (hres : resolvable binding dev.config)
    (hlen : dev.driver_data.data.length = 15)
    (hok : ∀ k, bus.resp k = 0) (ops : List Op) :
    (bu9795_init binding dev bus).1 = 0
      ∧ last_data_payload (run_ops (bu9795_init binding dev bus).2 ops).2.log
          = some (run_ops (bu9795_init binding dev bus).2 ops).1.driver_data.data
      ∧ (run_ops (bu9795_init binding dev bus).2 ops).1.driver_data.data.length = 15 := by
  obtain ⟨bound, hdata, hinit⟩ := bu9795_init_bound binding dev bus hres
  have hlen2 : bound.driver_data.data.length = 15 := by rw [hdata]; exact hlen
  have h0 : shadow_in_sync (bu9795_init binding dev bus).2 := by
    rw [hinit, init_transmit_eq bound bus hlen2]
    simp only [hok, ne_eq, not_true_eq_false, if_false]
    refine ⟨hlen2, ?_⟩
    simp [last_data_payload, init_frames, is_data_frame, Frame.wire, List.find?_cons]
  have hrun := run_ops_sync ops _ h0
  refine ⟨?_, hrun.2, hrun.1⟩
  rw [hinit, init_transmit_eq bound bus hlen2]
  simp [hok]

theorem shadow_matches_last_flush_witness :
    resolvable (fun _ => some 1) dev_lit.config
      ∧ last_data_payload
          (run_ops (bu9795_init (fun _ => some 1) dev_lit bus_ok).2
            [Op.set_symbol 1 1, Op.set_test_pattern 3, Op.set_segment 0 7]).2.log
        = some (run_ops (bu9795_init (fun _ => some 1) dev_lit bus_ok).2
            [Op.set_symbol 1 1, Op.set_test_pattern 3, Op.set_segment 0 7]).1.driver_data.data :=
  ⟨⟨rfl, fun _ _ => rfl⟩,
    (shadow_matches_last_flush (fun _ => some 1) dev_lit bus_ok ⟨rfl, fun _ _ => rfl⟩
      (by decide) (fun _ => rfl)
      [Op.set_symbol 1 1, Op.set_test_pattern 3, Op.set_segment 0 7]).2.1⟩

/-! ## Reporting of bus failures -/

theorem clear_impl_device (dev : Device) (bus : SpiBus) :
    (clear_impl dev bus).1
      = { dev with driver_data :=
            { dev.driver_data with
              data := memset dev.driver_data.data 0 BU9795_SEG_REGISTER_SIZE } } := rfl

theorem set_test_pattern_impl_device (dev : Device) (bus : SpiBus) (stage : Int) :
    (set_test_pattern_impl dev bus stage).1
      = { dev with driver_data :=
            { dev.driver_data with
              data := fill_pattern (pattern_width_of stage) dev.driver_data.data } } := rfl

theorem display_flush_bound {σ : Type} (api : DriverApi σ) (st : Display σ)
    (h : st.dev_segment.isSome = true) : (display_flush api st).dev_segment.isSome = true := by
  cases hd : st.dev_segment with
  | none => rw [hd] at h; cases h
  | some d => simp [display_flush, hd]

/-- C11 (as stated, refuted). On a bus where every write fails with -5, the
flush that `clear_impl` issues fails, yet nothing `clear_impl` hands back to
its caller tells a failure from a success: no observation of the returned
device separates the failing bus from the working one. The facade likewise
returns 0 from `display_set_battery` when the flush gives back -5. -/
theorem clear_impl_hides_bus_failure :
    (bu9795_flush (clear_impl dev_lit bus_down).1 bus_down).1 = -5
      ∧ (¬ ∃ report : Device → Bool,
            report (clear_impl dev_lit bus_down).1 = true
              ∧ report (clear_impl dev_lit bus_ok).1 = false)
      ∧ ((failing_api (-5)).flush []).1 = -5
      ∧ (display_set_battery (failing_api (-5)) display_bound 50).1 = 0 := by
  refine ⟨by decide, ?_, rfl, rfl⟩
  rintro ⟨report, h1, h2⟩
  rw [clear_impl_device] at h1 h2
  rw [h1] at h2
  cases h2

theorem display_set_symbols_ret {σ : Type} (api : DriverApi σ) (st : Display σ) (symbols : Nat)
    (d : σ) (h : st.dev_segment = some d) : (display_set_symbols api st symbols).1 = 0 := by
  simp only [display_set_symbols, h]
  split <;> rfl

theorem display_clear_symbols_ret {σ : Type} (api : DriverApi σ) (st : Display σ) (symbols : Nat)
    (d : σ) (h : st.dev_segment = some d) : (display_clear_symbols api st symbols).1 = 0 := by
  simp only [display_clear_symbols, h]
  split <;> rfl

/-- C11 (amended). A failed bus write reaches the caller of the functions
that return a code: `bu9795_write_commands`, `bu9795_write_data` and
`bu9795_flush` return the code the bus gave to their write, and `bu9795_init`
(devices resolvable) returns the code of its first failing write. The
functions `clear_impl` and `set_test_pattern_impl` return nothing: the device
they leave is the same whatever the bus answers. The five facade functions
return 0 whenever the display device is bound, whatever the flush gives
back. -/
theorem bus_failure_reporting (binding : String → Option Nat) (dev : Device) (bus : SpiBus)
    (hres : resolvable binding dev.config) (hlen : dev.driver_data.data.length = 15) :
    (∀ commands length,
        (bu9795_write_commands dev bus commands length).1 = bus.resp bus.log.length)
      ∧ (∀ addr payload len,
        (bu9795_write_data dev bus addr payload len).1 = bus.resp bus.log.length)
      ∧ (bu9795_flush dev bus).1 = bus.resp bus.log.length
      ∧ (∀ k, k < 3 → (∀ j, j < k → bus.resp (bus.log.length + j) = 0) →
          bus.resp (bus.log.length + k) ≠ 0 →
          (bu9795_init binding dev bus).1 = bus.resp (bus.log.length + k))
      ∧ (∀ bus2, (clear_impl dev bus).1 = (clear_impl dev bus2).1)
      ∧ (∀ bus2 stage,
          (set_test_pattern_impl dev bus stage).1 = (set_test_pattern_impl dev bus2 stage).1)
      ∧ (∀ (σ : Type) (api : DriverApi σ) (st : Display σ) (d : σ), st.dev_segment = some d →
          (∀ percent, (display_set_battery api st percent).1 = 0)
            ∧ (∀ symbols, (display_set_symbols api st symbols).1 = 0)
            ∧ (∀ symbols, (display_clear_symbols api st symbols).1 = 0)
            ∧ (∀ value, (display_set_temperature api st value).1 = 0)
            ∧ (∀ value, (display_set_humidity api st value).1 = 0)) := by
  refine ⟨fun _ _ => rfl, fun _ _ _ => rfl, rfl, ?_, fun _ => rfl, fun _ _ => rfl, ?_⟩
  · intro k hk hbefore hfail
    obtain ⟨bound, hdata, hinit⟩ := bu9795_init_bound binding dev bus hres
    have hlen2 : bound.driver_data.data.length = 15 := by rw [hdata]; exact hlen
    rw [hinit, init_transmit_eq bound bus hlen2]
    have hk3 : k = 0 ∨ k = 1 ∨ k = 2 := by omega
    rcases hk3 with rfl | rfl | rfl
    · have h0 : bus.resp bus.log.length ≠ 0 := by simpa using hfail
      simp [h0]
    · have h0 : bus.resp bus.log.length = 0 := by simpa using hbefore 0 (by omega)
      simp [h0, hfail]
    · have h0 : bus.resp bus.log.length = 0 := by simpa using hbefore 0 (by omega)
      have h1 : bus.resp (bus.log.length + 1) = 0 := hbefore 1 (by omega)
      simp [h0, h1]
  · intro σ api st d hd
    refine ⟨?_, fun symbols => display_set_symbols_ret api st symbols d hd,
      fun symbols => display_clear_symbols_ret api st symbols d hd, ?_, ?_⟩
    · intro percent
      simp [display_set_battery, hd]
    · intro value
      simp [display_set_temperature, hd]
    · intro value
      simp [display_set_humidity, hd]

theorem bus_failure_reporting_witness :
    resolvable (fun _ => some 1) dev_lit.config
      ∧ dev_lit.driver_data.data.length = 15
      ∧ (bu9795_flush dev_lit bus_down).1 = -5
      ∧ (bu9795_init (fun _ => some 1) dev_lit bus_flush_fails).1 = -5 :=
  have h := bus_failure_reporting (fun _ => some 1) dev_lit bus_flush_fails
    ⟨rfl, fun _ _ => rfl⟩ (by decide)
  ⟨⟨rfl, fun _ _ => rfl⟩, by decide,
    (bus_failure_reporting (fun _ => some 1) dev_lit bus_down
      ⟨rfl, fun _ _ => rfl⟩ (by decide)).2.2.1,
    h.2.2.2.1 1 (by decide)
      (fun j hj => by
        have hj0 : j = 0 := by omega
        subst hj0
        rfl)
      (by decide)⟩

/-! ## Display facade: symbols -/

theorem u32_or (s m : Nat) (hs : s < 2 ^ 32) (hm : m < 256) : u32 (s ||| m) = s ||| m := by
  have hm32 : m < 2 ^ 32 := by omega
  exact Nat.mod_eq_of_lt (Nat.or_lt_two_pow hs hm32)

theorem u32_and_bnot (s m : Nat) (hs : s < 2 ^ 32) :
    u32 (s &&& bnot m) = s &&& bnot m := by
  have h1 : s &&& bnot m ≤ s := Nat.and_le_left
  exact Nat.mod_eq_of_lt (by omega)

theorem testBit_and_bnot (s m : Nat) (hs : s < 2 ^ 32) (hm : m < 256) (i : Nat) :
    (s &&& bnot m).testBit i = (s.testBit i && !m.testBit i) := by
  have hm32 : m < 2 ^ 32 := by omega
  have h2 : (0xFFFFFFFF : Nat) = 2 ^ 32 - 1 := by norm_num
  rw [bnot, Nat.mod_eq_of_lt hm32, Nat.testBit_and, Nat.testBit_xor, h2,
    Nat.testBit_two_pow_sub_one]
  by_cases hi : i < 32
  · simp [hi]
  · have hfalse : s.testBit i = false :=
      Nat.testBit_lt_two_pow
        (lt_of_lt_of_le hs (Nat.pow_le_pow_right (by norm_num) (by omega)))
    simp [hfalse]

theorem display_set_symbols_trace (t : List DriverCall) (s m : Nat) (hs : s < 2 ^ 32)
    (hm : m < 256) :
    display_set_symbols trace_api { dev_segment := some t, set_symbols := s } m
      = (0, { dev_segment := some (t ++ if s ||| m ≠ s
                then [DriverCall.set_symbol (s ||| m), DriverCall.flush] else []),
              set_symbols := s ||| m }) := by
  simp only [display_set_symbols, u32_or s m hs hm]
  by_cases h : s ||| m = s
  · simp [h]
  · simp [h, trace_api]

theorem display_clear_symbols_trace (t : List DriverCall) (s m : Nat) (hs : s < 2 ^ 32) :
    display_clear_symbols trace_api { dev_segment := some t, set_symbols := s } m
      = (0, { dev_segment := some (t ++ if s &&& bnot m ≠ s
                then [DriverCall.set_symbol (s &&& bnot m), DriverCall.flush] else []),
              set_symbols := s &&& bnot m }) := by
  simp only [display_clear_symbols, u32_and_bnot s m hs]
  by_cases h : s &&& bnot m = s
  · simp [h]
  · simp [h, trace_api]

theorem flush_count_append_changed (t : List DriverCall) (c : Prop) [Decidable c] (x : Nat) :
    flush_count (t ++ if c then [DriverCall.set_symbol x, DriverCall.flush] else [])
      = flush_count t + if c then 1 else 0 := by
  by_cases h : c
  · simp [h, flush_count, List.count_append, List.count_cons]
  · simp [h]

/-- C12. With the display device bound, for every prior symbol state s (a
32-bit value) and every 8-bit mask m: `display_set_symbols m` returns 0 and
leaves the persisted state equal to s | m; `display_clear_symbols m` returns
0 and leaves it equal to s & ~m (bit i of the result is bit i of s and not
bit i of m). Each call makes driver calls only when the resulting state
differs from s, and then exactly `set_symbol` followed by one flush; when
the state is unchanged it makes no call. -/
theorem display_symbols_update_and_flush (t : List DriverCall) (s m : Nat)
    (hs : s < 2 ^ 32) (hm : m < 256) :
    (display_set_symbols trace_api { dev_segment := some t, set_symbols := s } m).1 = 0
      ∧ (display_set_symbols trace_api { dev_segment := some t, set_symbols := s } m).2.set_symbols
          = s ||| m
      ∧ calls_of (display_set_symbols trace_api { dev_segment := some t, set_symbols := s } m).2
          = t ++ (if s ||| m ≠ s then [DriverCall.set_symbol (s ||| m), DriverCall.flush]
                  else [])
      ∧ flush_count
            (calls_of (display_set_symbols trace_api { dev_segment := some t, set_symbols := s } m).2)
          = flush_count t + (if s ||| m ≠ s then 1 else 0)
      ∧ (display_clear_symbols trace_api { dev_segment := some t, set_symbols := s } m).1 = 0
      ∧ (display_clear_symbols trace_api { dev_segment := some t, set_symbols := s } m).2.set_symbols
          = s &&& bnot m
      ∧ (∀ i, (s &&& bnot m).testBit i = (s.testBit i && !m.testBit i))
      ∧ calls_of (display_clear_symbols trace_api { dev_segment := some t, set_symbols := s } m).2
          = t ++ (if s &&& bnot m ≠ s
                  then [DriverCall.set_symbol (s &&& bnot m), DriverCall.flush] else [])
      ∧ flush_count
            (calls_of (display_clear_symbols trace_api { dev_segment := some t, set_symbols := s } m).2)
          = flush_count t + (if s &&& bnot m ≠ s then 1 else 0) := by
  rw [display_set_symbols_trace t s m hs hm, display_clear_symbols_trace t s m hs]
  refine ⟨rfl, rfl, rfl, ?_, rfl, rfl, testBit_and_bnot s m hs hm, rfl, ?_⟩
  · exact flush_count_append_changed t _ _
  · exact flush_count_append_changed t _ _

theorem display_symbols_update_and_flush_witness :
    (0x24 : Nat) < 2 ^ 32 ∧ (0x06 : Nat) < 256
      ∧ calls_of (display_set_symbols trace_api { dev_segment := some [], set_symbols := 0x24 }
          0x06).2 = [DriverCall.set_symbol 0x26, DriverCall.flush]
      ∧ calls_of (display_clear_symbols trace_api
          { dev_segment := some [], set_symbols := 0x24 } 0x06).2
          = [DriverCall.set_symbol 0x20, DriverCall.flush] :=
  have h := display_symbols_update_and_flush [] 0x24 0x06 (by norm_num) (by norm_num)
  ⟨by norm_num, by norm_num, h.2.2.1, h.2.2.2.2.2.2.2.1⟩

/-- C13 (as stated, refuted). When the mask is already part of the symbol state
(state 0x01, mask 0x01), two calls of `display_set_symbols` in a row issue no
flush at all, not one. -/
theorem display_set_symbols_twice_without_flush :
    flush_count (calls_of
      (display_set_symbols trace_api
        (display_set_symbols trace_api { dev_segment := some [], set_symbols := 0x01 } 0x01).2
        0x01).2) = 0 := by
  decide

/-- C13 (amended). With the display device bound, for every prior symbol state
s and every 8-bit mask m, the second of two calls of `display_set_symbols m`
in a row returns 0, issues no driver call and leaves the state as the first
call left it; over the two calls there is one flush when m has a bit that s
lacks (s | m differs from s) and none otherwise. -/
theorem display_set_symbols_idempotent (t : List DriverCall) (s m : Nat)
    (hs : s < 2 ^ 32) (hm : m < 256) :
    display_set_symbols trace_api
        (display_set_symbols trace_api { dev_segment := some t, set_symbols := s } m).2 m
      = (0, (display_set_symbols trace_api { dev_segment := some t, set_symbols := s } m).2)
      ∧ flush_count (calls_of
          (display_set_symbols trace_api
            (display_set_symbols trace_api { dev_segment := some t, set_symbols := s } m).2
            m).2)
          = flush_count t + (if s ||| m ≠ s then 1 else 0) := by
  have hsm : s ||| m < 2 ^ 32 := Nat.or_lt_two_pow hs (by omega)
  have hidem : (s ||| m) ||| m = s ||| m := by rw [Nat.or_assoc, Nat.or_self]
  rw [display_set_symbols_trace t s m hs hm, display_set_symbols_trace _ (s ||| m) m hsm hm]
  simp only [hidem, ne_eq, not_true_eq_false, if_false, List.append_nil, true_and]
  exact flush_count_append_changed t _ _

theorem display_set_symbols_idempotent_witness :
    (0x24 : Nat) < 2 ^ 32 ∧ (0x06 : Nat) < 256
      ∧ flush_count (calls_of
          (display_set_symbols trace_api
            (display_set_symbols trace_api { dev_segment := some [], set_symbols := 0x24 }
              0x06).2
            0x06).2) = 1 :=
  ⟨by norm_num, by norm_num,
    (display_set_symbols_idempotent [] 0x24 0x06 (by norm_num) (by norm_num)).2⟩

/-! ## Display facade: battery -/

theorem display_set_battery_trace (t : List DriverCall) (s : Nat) (percent : Int) :
    display_set_battery trace_api { dev_segment := some t, set_symbols := s } percent
      = (0, { dev_segment :=
                some (t ++ [DriverCall.set_segment 6 (battery_icon_level percent),
                            DriverCall.flush]),
              set_symbols := s }) := by
  simp only [display_set_battery, battery_icon_level, display_flush, trace_api]
  split_ifs <;> simp

/-- C14. With the display device bound, for every integer percent,
`display_set_battery` returns 0 and makes exactly two driver calls: it
passes to segment group 6 the level 6 if percent > 80, else 5 if percent >
60, else 4 if percent > 40, else 3 if percent > 20, else 2 if percent > 0,
else 1, and then flushes. Percent 80, 60, 40, 20, 0 select the levels 5, 4,
3, 2, 1 (and 81, 61, 41, 21, 1 the levels 6, 5, 4, 3, 2); the level is always
within 1..6 and is monotone non-decreasing in percent. -/
theorem display_set_battery_level (t : List DriverCall) (s : Nat) (percent : Int) :
    display_set_battery trace_api { dev_segment := some t, set_symbols := s } percent
      = (0, { dev_segment :=
                some (t ++ [DriverCall.set_segment 6 (battery_icon_level percent),
                            DriverCall.flush]),
              set_symbols := s })
      ∧ (List.map (fun p => calls_of (display_set_battery trace_api display_bound p).2)
            [80, 60, 40, 20, 0]
          = List.map (fun l => [DriverCall.set_segment 6 l, DriverCall.flush]) [5, 4, 3, 2, 1])
      ∧ (List.map (fun p => calls_of (display_set_battery trace_api display_bound p).2)
            [81, 61, 41, 21, 1]
          = List.map (fun l => [DriverCall.set_segment 6 l, DriverCall.flush]) [6, 5, 4, 3, 2])
      ∧ 1 ≤ battery_icon_level percent ∧ battery_icon_level percent ≤ 6
      ∧ (∀ q : Int, percent ≤ q → battery_icon_level percent ≤ battery_icon_level q) := by
  refine ⟨display_set_battery_trace t s percent, by decide, by decide, ?_, ?_, ?_⟩
  · simp only [battery_icon_level]; split_ifs <;> omega
  · simp only [battery_icon_level]; split_ifs <;> omega
  · intro q hq
    simp only [battery_icon_level]
    split_ifs <;> omega

theorem display_set_battery_level_witness :
    (20 : Int) ≤ 21 ∧ battery_icon_level 20 ≤ battery_icon_level 21 :=
  ⟨by decide, (display_set_battery_level [] 0 20).2.2.2.2.2 21 (by decide)⟩

/-! ## Test pattern -/

theorem limited_stage_add_period (stage : Int) (h : 0 ≤ stage) :
    limited_stage (stage + 8) = limited_stage stage := by
  have h8 : max_pattern_stages + 1 = 8 := by decide
  rw [limited_stage, limited_stage, h8, Int.tmod_eq_emod (by omega) (by omega),
    Int.tmod_eq_emod h (by omega)]
  omega

theorem limited_stage_of_bounds (stage : Int) (h0 : 0 ≤ stage) (h7 : stage ≤ 7) :
    limited_stage stage = stage := by
  have h8 : max_pattern_stages + 1 = 8 := by decide
  rw [limited_stage, h8]
  exact Int.tmod_eq_of_lt h0 (by omega)

theorem eq_of_length_15 (l : List Nat) (h : l.length = 15) :
    ∃ a0 a1 a2 a3 a4 a5 a6 a7 a8 a9 a10 a11 a12 a13 a14 : Nat,
      l = [a0, a1, a2, a3, a4, a5, a6, a7, a8, a9, a10, a11, a12, a13, a14] := by
  match l, h with
  | [a0, a1, a2, a3, a4, a5, a6, a7, a8, a9, a10, a11, a12, a13, a14], _ =>
    exact ⟨a0, a1, a2, a3, a4, a5, a6, a7, a8, a9, a10, a11, a12, a13, a14, rfl⟩

theorem range_15 : List.range 15 = [0, 1, 2, 3, 4, 5, 6, 7, 8, 9, 10, 11, 12, 13, 14] := by
  decide

theorem fill_pattern_eq (w : Nat) (data : List Nat) (h : data.length = 15)
    (hw : w = 1 ∨ w = 2 ∨ w = 4 ∨ w = 8 ∨ w = 16 ∨ w = 32 ∨ w = 64 ∨ w = 128) :
    fill_pattern w data = (List.range 15).map (stripe_byte w) := by
  obtain ⟨a0, a1, a2, a3, a4, a5, a6, a7, a8, a9, a10, a11, a12, a13, a14, rfl⟩ :=
    eq_of_length_15 data h
  rcases hw with rfl | rfl | rfl | rfl | rfl | rfl | rfl | rfl <;>
    simp only [fill_pattern, BU9795_SEG_REGISTER_SIZE, range_15, List.foldl_cons,
      List.foldl_nil, pattern_step, initial_bit_pattern, List.set_cons_zero,
      List.set_cons_succ, List.map, stripe_byte] <;>
    simp [u8]

theorem limited_stage_bounds (stage : Int) (h : 0 ≤ stage) :
    0 ≤ limited_stage stage ∧ limited_stage stage ≤ 7 := by
  have h8 : max_pattern_stages + 1 = 8 := by decide
  rw [limited_stage, h8, Int.tmod_eq_emod h (by omega)]
  omega

theorem pattern_width_of_nonneg (stage : Int) (h : 0 ≤ stage) :
    pattern_width_of stage = 1 ∨ pattern_width_of stage = 2 ∨ pattern_width_of stage = 4
      ∨ pattern_width_of stage = 8 ∨ pattern_width_of stage = 16
      ∨ pattern_width_of stage = 32 ∨ pattern_width_of stage = 64
      ∨ pattern_width_of stage = 128 := by
  obtain ⟨h0, h7⟩ := limited_stage_bounds stage h
  unfold pattern_width_of
  generalize limited_stage stage = r at h0 h7
  interval_cases r <;> decide

theorem pattern_width_of_bounds (stage : Int) (h0 : 0 ≤ stage) (h7 : stage ≤ 7) :
    pattern_width_of stage = 2 ^ (7 - stage).toNat := by
  rw [pattern_width_of, limited_stage_of_bounds stage h0 h7]
  rfl

set_option maxRecDepth 100000 in
theorem stripe_bits (w : Nat)
    (hw : w = 1 ∨ w = 2 ∨ w = 4 ∨ w = 8 ∨ w = 16 ∨ w = 32 ∨ w = 64 ∨ w = 128) :
    ∀ k, k < 120 →
      shadow_bit ((List.range 15).map (stripe_byte w)) k = decide (k / w % 2 = 0) := by
  rcases hw with rfl | rfl | rfl | rfl | rfl | rfl | rfl | rfl <;> decide

/-- C15. With the stage taken modulo 8 (max stage 7), for every stage >= 0 and
every prior 15-byte content of the shadow register, `set_test_pattern_impl` at
stage and at stage + 8 leave identical shadow registers (whatever the two
prior contents were), of 15 bytes. -/
theorem set_test_pattern_period (dev dev2 : Device) (bus bus2 : SpiBus) (stage : Int)
    (h : 0 ≤ stage) (hlen : dev.driver_data.data.length = 15)
    (hlen2 : dev2.driver_data.data.length = 15) :
    max_pattern_stages = 7
      ∧ (set_test_pattern_impl dev bus stage).1.driver_data.data
          = (set_test_pattern_impl dev2 bus2 (stage + 8)).1.driver_data.data
      ∧ (set_test_pattern_impl dev bus stage).1.driver_data.data.length = 15 := by
  have hw : pattern_width_of (stage + 8) = pattern_width_of stage := by
    rw [pattern_width_of, pattern_width_of, limited_stage_add_period stage h]
  have h1 := fill_pattern_eq _ _ hlen (pattern_width_of_nonneg stage h)
  have h2 := fill_pattern_eq _ _ hlen2 (pattern_width_of_nonneg stage h)
  rw [set_test_pattern_impl_device, set_test_pattern_impl_device, hw]
  refine ⟨rfl, ?_, ?_⟩
  · simp only [h1, h2]
  · simp only [h1, List.length_map, List.length_range]

theorem set_test_pattern_period_witness :
    (0 : Int) ≤ 5 ∧ dev_lit.driver_data.data.length = 15 ∧ dev_0.driver_data.data.length = 15
      ∧ (set_test_pattern_impl dev_lit bus_ok 5).1.driver_data.data
          = (set_test_pattern_impl dev_0 bus_down (5 + 8)).1.driver_data.data :=
  ⟨by decide, by decide, by decide,
    (set_test_pattern_period dev_lit dev_0 bus_ok bus_down 5 (by decide) (by decide)
      (by decide)).2.1⟩

set_option maxRecDepth 100000 in
/-- C16 (as stated, refuted). After `set_test_pattern_impl` at stage 0 every
byte of the shadow register is 0xFF: among the 120 bits there is no unlit
bit, so the register is uniform and shows no stripe. -/
theorem test_pattern_stage_0_has_no_unlit_bit :
    (set_test_pattern_impl dev_lit bus_ok 0).1.driver_data.data
        = [0xFF, 0xFF, 0xFF, 0xFF, 0xFF, 0xFF, 0xFF, 0xFF, 0xFF, 0xFF, 0xFF, 0xFF, 0xFF, 0xFF,
           0xFF]
      ∧ ¬ ((∃ k, k < 120
              ∧ shadow_bit (set_test_pattern_impl dev_lit bus_ok 0).1.driver_data.data k = true)
            ∧ (∃ k, k < 120
              ∧ shadow_bit (set_test_pattern_impl dev_lit bus_ok 0).1.driver_data.data k
                  = false)) := by
  decide

set_option maxRecDepth 100000 in
/-- C16 (amended). At stage 0 the pattern width is 128, wider than the 120
bits of the register: after `set_test_pattern_impl` at stage 0, for every
prior 15-byte content, every byte of the shadow register is 0xFF and each of
the 120 bits is lit (all pixels on). -/
theorem test_pattern_stage_0_all_lit (dev : Device) (bus : SpiBus)
    (hlen : dev.driver_data.data.length = 15) :
    pattern_width_of 0 = 128
      ∧ (set_test_pattern_impl dev bus 0).1.driver_data.data = List.replicate 15 0xFF
      ∧ ∀ k, k < 120 →
          shadow_bit (set_test_pattern_impl dev bus 0).1.driver_data.data k = true := by
  have hw : pattern_width_of 0 = 128 := by decide
  have hdata : (set_test_pattern_impl dev bus 0).1.driver_data.data = List.replicate 15 0xFF := by
    rw [set_test_pattern_impl_device, hw]
    simp only [fill_pattern_eq 128 _ hlen (by decide)]
    decide
  rw [hdata]
  exact ⟨hw, rfl, by decide⟩

theorem test_pattern_stage_0_all_lit_witness :
    dev_lit.driver_data.data.length = 15
      ∧ (set_test_pattern_impl dev_lit bus_ok 0).1.driver_data.data = List.replicate 15 0xFF :=
  ⟨by decide, (test_pattern_stage_0_all_lit dev_lit bus_ok (by decide)).2.1⟩

/-- C17 (as stated, refuted). The width at stage 1 is not twice the width at
stage 0: it is 64 against 128. Stage 0 has the widest stripe and stage 7
the narrowest. -/
theorem pattern_width_does_not_double :
    ¬ (pattern_width_of (0 + 1) = 2 * pattern_width_of 0)
      ∧ pattern_width_of 0 = 128 ∧ pattern_width_of (0 + 1) = 64
      ∧ pattern_width_of 7 = 1 := by
  decide

/-- C17 (amended). Stage 0 uses the widest stripe, 128 bits, and stage 7 the
narrowest, 1 bit; the width halves with each stage: for every stage s in
0..6 the pattern width used by `set_test_pattern_impl` at s is twice the one
used at s + 1. The width is the one the fill of the shadow register runs
with. -/
theorem pattern_width_halves (dev : Device) (bus : SpiBus) (s : Int)
    (h0 : 0 ≤ s) (h6 : s ≤ 6) :
    pattern_width_of s = 2 * pattern_width_of (s + 1)
      ∧ pattern_width_of 0 = 128 ∧ pattern_width_of 7 = 1
      ∧ (set_test_pattern_impl dev bus s).1.driver_data.data
          = fill_pattern (pattern_width_of s) dev.driver_data.data
      ∧ (set_test_pattern_impl dev bus (s + 1)).1.driver_data.data
          = fill_pattern (pattern_width_of (s + 1)) dev.driver_data.data := by
  refine ⟨?_, by decide, by decide, rfl, rfl⟩
  interval_cases s <;> decide

theorem pattern_width_halves_witness :
    (0 : Int) ≤ 3 ∧ (3 : Int) ≤ 6 ∧ pattern_width_of 3 = 2 * pattern_width_of (3 + 1) :=
  ⟨by decide, by decide, (pattern_width_halves dev_lit bus_ok 3 (by decide) (by decide)).1⟩

/-- C18. For every stage in 0..7, with w = 2^(7 - stage) the pattern width of
that stage (between 1 and 128), after `set_test_pattern_impl` on any prior
15-byte content the shadow register has 15 bytes, byte i being 0xF0 if w =
4, 0xCC if w = 2, 0xAA if w = 1, and for w >= 8 0xFF when i / (w / 8) is even
and 0x00 when it is odd; numbering the 120 bits from the most significant
bit of byte 0, bit k is set if and only if k / w is even. -/
theorem test_pattern_stripes (dev : Device) (bus : SpiBus) (stage : Int)
    (h0 : 0 ≤ stage) (h7 : stage ≤ 7) (hlen : dev.driver_data.data.length = 15) :
    pattern_width_of stage = 2 ^ (7 - stage).toNat
      ∧ 1 ≤ pattern_width_of stage ∧ pattern_width_of stage ≤ 128
      ∧ (set_test_pattern_impl dev bus stage).1.driver_data.data
          = (List.range 15).map (stripe_byte (pattern_width_of stage))
      ∧ (∀ k, k < 120 →
          shadow_bit (set_test_pattern_impl dev bus stage).1.driver_data.data k
            = decide (k / pattern_width_of stage % 2 = 0)) := by
  have hw := pattern_width_of_nonneg stage h0
  have hdata : (set_test_pattern_impl dev bus stage).1.driver_data.data
      = (List.range 15).map (stripe_byte (pattern_width_of stage)) := by
    rw [set_test_pattern_impl_device]
    simp only [fill_pattern_eq _ _ hlen hw]
  refine ⟨pattern_width_of_bounds stage h0 h7, by omega, by omega, hdata, ?_⟩
  rw [hdata]
  exact stripe_bits _ hw

theorem test_pattern_stripes_witness :
    (0 : Int) ≤ 3 ∧ (3 : Int) ≤ 7 ∧ dev_lit.driver_data.data.length = 15
      ∧ (set_test_pattern_impl dev_lit bus_ok 3).1.driver_data.data
          = [0xFF, 0xFF, 0x00, 0x00, 0xFF, 0xFF, 0x00, 0x00, 0xFF, 0xFF, 0x00, 0x00, 0xFF, 0xFF,
             0x00] :=
  ⟨by decide, by decide, by decide,
    (test_pattern_stripes dev_lit bus_ok 3 (by decide) (by decide) (by decide)).2.2.2.1⟩

/-- C19 (the code at the failing input). For the stage -1 the remainder of C
leaves the stage at -1, below the bound 0, and the pattern width is
2^8 = 256, above 128; the register is then filled with 0xFF. For -7 the
width is 2^14. -/
theorem limited_stage_negative_escapes :
    limited_stage (-1) = -1
      ∧ pattern_width_of (-1) = 256
      ∧ pattern_width_of (-7) = 16384
      ∧ (set_test_pattern_impl dev_lit bus_ok (-1)).1.driver_data.data
          = List.replicate 15 0xFF := by
  decide

/-! ## Command kinds -/

theorem and_8_cases (x : Nat) : x &&& 8 = 0 ∨ x &&& 8 = 8 := by
  have h1 : (x &&& 8) &&& 8 = x &&& 8 := by rw [Nat.and_assoc, Nat.and_self]
  have h2 : x &&& 8 ≤ 8 := Nat.and_le_right
  generalize x &&& 8 = v at h1 h2
  interval_cases v <;> first | omega | (exfalso; revert h1; decide)

theorem and_1_cases (x : Nat) : x &&& 1 = 0 ∨ x &&& 1 = 1 := by
  have h2 : x &&& 1 ≤ 1 := Nat.and_le_right
  omega

theorem set_address_range (a : Nat) : bu9795_set_address a ≤ 31 := by
  rw [bu9795_set_address_eq_mod]
  omega

theorem set_display_control_range (f w p : Nat) :
    32 ≤ bu9795_set_display_control f w p ∧ bu9795_set_display_control f w p ≤ 63 := by
  rw [bu9795_set_display_control_eq]
  rcases and_24_cases f with hf | hf | hf | hf <;>
  rcases and_4_cases w with hw | hw <;>
  rcases and_3_cases p with hp | hp | hp | hp <;>
  rw [hf, hw, hp] <;> decide

theorem set_mode_range (d b : Nat) :
    bu9795_set_mode d b = 0x40 ∨ bu9795_set_mode d b = 0x44
      ∨ bu9795_set_mode d b = 0x48 ∨ bu9795_set_mode d b = 0x4C := by
  have h : bu9795_set_mode d b = u8 (0x40 ||| (d &&& 8) ||| (b &&& 4)) := rfl
  rw [h]
  rcases and_8_cases d with hd | hd <;>
  rcases and_4_cases b with hb | hb <;>
  rw [hd, hb] <;> decide

theorem set_ic_range (m c : Nat) :
    bu9795_set_ic m c = 0x68 ∨ bu9795_set_ic m c = 0x69
      ∨ bu9795_set_ic m c = 0x6C ∨ bu9795_set_ic m c = 0x6D := by
  have h : bu9795_set_ic m c = u8 (0x68 ||| (m &&& 4) ||| (c &&& 1)) := rfl
  rw [h]
  rcases and_4_cases m with hm | hm <;>
  rcases and_1_cases c with hc | hc <;>
  rw [hm, hc] <;> decide

theorem set_blick_rate_range (r : Nat) :
    112 ≤ bu9795_set_blick_rate r ∧ bu9795_set_blick_rate r ≤ 115 := by
  have h : bu9795_set_blick_rate r = u8 (0x70 ||| (r &&& 3)) := rfl
  rw [h]
  rcases and_3_cases r with hr | hr | hr | hr <;> rw [hr] <;> decide

theorem set_all_pixels_range (x : Nat) :
    124 ≤ bu9795_set_all_pixels x ∧ bu9795_set_all_pixels x ≤ 127 := by
  have h : bu9795_set_all_pixels x = u8 (0x7C ||| (x &&& 3)) := rfl
  rw [h]
  rcases and_3_cases x with hx | hx | hx | hx <;> rw [hx] <;> decide

/-- C20. For all inputs, the bytes of two different encoders among
`bu9795_set_address`, `bu9795_set_display_control`, `bu9795_set_mode`,
`bu9795_set_ic`, `bu9795_reset`, `bu9795_set_blick_rate` and
`bu9795_set_all_pixels` are never equal (all 21 pairs), so an encoded byte
determines its command kind; `bu9795_reset` is 0x6A and `bu9795_set_ic` never
yields 0x6A. -/
theorem command_kinds_disjoint (a f w p d b m c r x : Nat) :
    (bu9795_set_address a ≠ bu9795_set_display_control f w p
        ∧ bu9795_set_address a ≠ bu9795_set_mode d b
        ∧ bu9795_set_address a ≠ bu9795_set_ic m c
        ∧ bu9795_set_address a ≠ bu9795_reset
        ∧ bu9795_set_address a ≠ bu9795_set_blick_rate r
        ∧ bu9795_set_address a ≠ bu9795_set_all_pixels x)
      ∧ (bu9795_set_display_control f w p ≠ bu9795_set_mode d b
        ∧ bu9795_set_display_control f w p ≠ bu9795_set_ic m c
        ∧ bu9795_set_display_control f w p ≠ bu9795_reset
        ∧ bu9795_set_display_control f w p ≠ bu9795_set_blick_rate r
        ∧ bu9795_set_display_control f w p ≠ bu9795_set_all_pixels x)
      ∧ (bu9795_set_mode d b ≠ bu9795_set_ic m c
        ∧ bu9795_set_mode d b ≠ bu9795_reset
        ∧ bu9795_set_mode d b ≠ bu9795_set_blick_rate r
        ∧ bu9795_set_mode d b ≠ bu9795_set_all_pixels x)
      ∧ (bu9795_set_ic m c ≠ bu9795_reset
        ∧ bu9795_set_ic m c ≠ bu9795_set_blick_rate r
        ∧ bu9795_set_ic m c ≠ bu9795_set_all_pixels x)
      ∧ (bu9795_reset ≠ bu9795_set_blick_rate r
        ∧ bu9795_reset ≠ bu9795_set_all_pixels x)
      ∧ bu9795_set_blick_rate r ≠ bu9795_set_all_pixels x
      ∧ bu9795_reset = 0x6A
      ∧ bu9795_set_ic m c ≠ 0x6A := by
  have hA := set_address_range a
  have hD := set_display_control_range f w p
  have hM := set_mode_range d b
  have hI := set_ic_range m c
  have hR : bu9795_reset = 0x6A := by decide
  have hB := set_blick_rate_range r
  have hP := set_all_pixels_range x
  refine ⟨⟨?_, ?_, ?_, ?_, ?_, ?_⟩, ⟨?_, ?_, ?_, ?_, ?_⟩, ⟨?_, ?_, ?_, ?_⟩, ⟨?_, ?_, ?_⟩,
    ⟨?_, ?_⟩, ?_, hR, ?_⟩ <;> omega

/-! ## Display facade: no device bound -/

/-- C21. When the display device is not bound, for every symbol state s (a
32-bit value) and every 8-bit mask m, `display_set_symbols m` and
`display_clear_symbols m` return `-ENOENT` (which is not 0) and leave the
device unbound; the result is the same for every set of driver functions,
so none of them is called, and the recording driver shows no call. The
persisted symbol state is updated all the same, to s | m and to s & ~m: a
failing call can change it (0 becomes 1 on setting mask 1, 1 becomes 0 on
clearing mask 1). -/
theorem display_symbols_unbound (σ : Type) (api : DriverApi σ) (s m : Nat)
    (hs : s < 2 ^ 32) (hm : m < 256) :
    display_set_symbols api (display_unbound σ s) m = (-ENOENT, display_unbound σ (s ||| m))
      ∧ display_clear_symbols api (display_unbound σ s) m
          = (-ENOENT, display_unbound σ (s &&& bnot m))
      ∧ (∀ i, (s &&& bnot m).testBit i = (s.testBit i && !m.testBit i))
      ∧ -ENOENT ≠ 0
      ∧ calls_of (display_set_symbols trace_api (display_unbound (List DriverCall) s) m).2 = []
      ∧ calls_of (display_clear_symbols trace_api (display_unbound (List DriverCall) s) m).2 = []
      ∧ (display_set_symbols trace_api (display_unbound (List DriverCall) 0) 1).2.set_symbols = 1
      ∧ (display_clear_symbols trace_api (display_unbound (List DriverCall) 1) 1).2.set_symbols
          = 0 := by
  have hset : ∀ (τ : Type) (a : DriverApi τ),
      display_set_symbols a (display_unbound τ s) m = (-ENOENT, display_unbound τ (s ||| m)) := by
    intro τ a
    simp only [display_set_symbols, display_unbound, u32_or s m hs hm]
  have hclear : ∀ (τ : Type) (a : DriverApi τ),
      display_clear_symbols a (display_unbound τ s) m
        = (-ENOENT, display_unbound τ (s &&& bnot m)) := by
    intro τ a
    simp only [display_clear_symbols, display_unbound, u32_and_bnot s m hs]
  refine ⟨hset σ api, hclear σ api, testBit_and_bnot s m hs hm, by decide, ?_, ?_, by decide,
    by decide⟩
  · rw [hset]; rfl
  · rw [hclear]; rfl

theorem display_symbols_unbound_witness :
    (0x24 : Nat) < 2 ^ 32 ∧ (0x06 : Nat) < 256
      ∧ display_set_symbols trace_api (display_unbound (List DriverCall) 0x24) 0x06
          = (-2, display_unbound (List DriverCall) 0x26) :=
  ⟨by norm_num, by norm_num,
    (display_symbols_unbound (List DriverCall) trace_api 0x24 0x06 (by norm_num)
      (by norm_num)).1⟩

/-! ## Display facade: digits -/

theorem digits_of_reading (v : sensor_value) (h1 : 0 ≤ v.val1) (h2 : 0 ≤ v.val2) :
    Int.tdiv v.val1 10 = v.val1 / 10 ∧ Int.tmod v.val1 10 = v.val1 % 10
      ∧ Int.tdiv v.val2 100000 = v.val2 / 100000 :=
  ⟨Int.tdiv_eq_ediv h1 (by decide), Int.tmod_eq_emod h1 (by decide),
    Int.tdiv_eq_ediv h2 (by decide)⟩

theorem display_set_temperature_trace (t : List DriverCall) (s : Nat) (v : sensor_value)
    (hs : s < 2 ^ 32) :
    calls_of (display_set_temperature trace_api { dev_segment := some t, set_symbols := s }
        (some v)).2
      = (t ++ [DriverCall.set_segment 0 (Int.tdiv v.val1 10),
               DriverCall.set_segment 1 (Int.tmod v.val1 10),
               DriverCall.set_segment 2 (Int.tdiv v.val2 100000)]
           ++ (if s ||| 0x01 ≠ s then [DriverCall.set_symbol (s ||| 0x01), DriverCall.flush]
               else []))
          ++ [DriverCall.flush] := by
  have hsym := display_set_symbols_trace
    (t ++ [DriverCall.set_segment 0 (Int.tdiv v.val1 10),
           DriverCall.set_segment 1 (Int.tmod v.val1 10),
           DriverCall.set_segment 2 (Int.tdiv v.val2 100000)]) s 0x01 hs (by decide)
  simp only [display_set_temperature, DISPLAY_SYMBOL_TEMPERATURE_DECIMAL, trace_api,
    List.append_assoc, List.cons_append, List.nil_append] at hsym ⊢
  rw [hsym]
  simp [display_flush, calls_of]

theorem display_set_humidity_trace (t : List DriverCall) (s : Nat) (v : sensor_value)
    (hs : s < 2 ^ 32) :
    calls_of (display_set_humidity trace_api { dev_segment := some t, set_symbols := s }
        (some v)).2
      = (t ++ [DriverCall.set_segment 3 (Int.tdiv v.val1 10),
               DriverCall.set_segment 4 (Int.tmod v.val1 10),
               DriverCall.set_segment 5 (Int.tdiv v.val2 100000)]
           ++ (if s ||| 0x10 ≠ s then [DriverCall.set_symbol (s ||| 0x10), DriverCall.flush]
               else []))
          ++ [DriverCall.flush] := by
  have hsym := display_set_symbols_trace
    (t ++ [DriverCall.set_segment 3 (Int.tdiv v.val1 10),
           DriverCall.set_segment 4 (Int.tmod v.val1 10),
           DriverCall.set_segment 5 (Int.tdiv v.val2 100000)]) s 0x10 hs (by decide)
  simp only [display_set_humidity, DISPLAY_SYMBOL_HUMIDITY_DECIMAL, trace_api,
    List.append_assoc, List.cons_append, List.nil_append] at hsym ⊢
  rw [hsym]
  simp [display_flush, calls_of]

/-- C22. With the display device bound, for every sensor value with 0 <= val1
<= 99 and 0 <= val2 <= 999999, the driver calls of `display_set_temperature`
are `set_segment` for the digits 0, 1, 2 and those of `display_set_humidity`
for the digits 3, 4, 5, with the values tens = val1 / 10, ones = val1 % 10
and tenths = val2 / 100000, followed by the decimal symbol (when it was not
set yet) and the flush. Each of the three values lies in 0..9, and tens * 10
+ ones = val1. -/
theorem display_digit_decomposition (t : List DriverCall) (s : Nat) (v : sensor_value)
    (hs : s < 2 ^ 32)
    (h1 : 0 ≤ v.val1) (h1u : v.val1 ≤ 99) (h2 : 0 ≤ v.val2) (h2u : v.val2 ≤ 999999) :
    calls_of (display_set_temperature trace_api { dev_segment := some t, set_symbols := s }
        (some v)).2
      = (t ++ [DriverCall.set_segment 0 (v.val1 / 10),
               DriverCall.set_segment 1 (v.val1 % 10),
               DriverCall.set_segment 2 (v.val2 / 100000)]
           ++ (if s ||| 0x01 ≠ s then [DriverCall.set_symbol (s ||| 0x01), DriverCall.flush]
               else []))
          ++ [DriverCall.flush]
      ∧ calls_of (display_set_humidity trace_api { dev_segment := some t, set_symbols := s }
          (some v)).2
        = (t ++ [DriverCall.set_segment 3 (v.val1 / 10),
                 DriverCall.set_segment 4 (v.val1 % 10),
                 DriverCall.set_segment 5 (v.val2 / 100000)]
             ++ (if s ||| 0x10 ≠ s then [DriverCall.set_symbol (s ||| 0x10), DriverCall.flush]
                 else []))
            ++ [DriverCall.flush]
      ∧ (0 ≤ v.val1 / 10 ∧ v.val1 / 10 ≤ 9)
      ∧ (0 ≤ v.val1 % 10 ∧ v.val1 % 10 ≤ 9)
      ∧ (0 ≤ v.val2 / 100000 ∧ v.val2 / 100000 ≤ 9)
      ∧ v.val1 / 10 * 10 + v.val1 % 10 = v.val1 := by
  obtain ⟨d1, d2, d3⟩ := digits_of_reading v h1 h2
  refine ⟨?_, ?_, by omega, by omega, by omega, by omega⟩
  · rw [display_set_temperature_trace t s v hs, d1, d2, d3]
  · rw [display_set_humidity_trace t s v hs, d1, d2, d3]

theorem display_digit_decomposition_witness :
    (0 : Nat) < 2 ^ 32 ∧ (0 : Int) ≤ reading_23_4.val1 ∧ reading_23_4.val1 ≤ 99
      ∧ (0 : Int) ≤ reading_23_4.val2 ∧ reading_23_4.val2 ≤ 999999
      ∧ calls_of (display_set_temperature trace_api display_bound (some reading_23_4)).2
        = [DriverCall.set_segment 0 2, DriverCall.set_segment 1 3, DriverCall.set_segment 2 4,
           DriverCall.set_symbol 0x01, DriverCall.flush, DriverCall.flush] :=
  ⟨by norm_num, by decide, by decide, by decide, by decide,
    (display_digit_decomposition [] 0 reading_23_4 (by norm_num) (by decide) (by decide)
      (by decide) (by decide)).1⟩

end BU9795
